import Mathlib

/-!
Shallow embedding of `src/code.js`: a Google Apps Script engine that
reconciles a spreadsheet of tennis results against a remote HubDB store.
Pure data is translated directly; the spreadsheet becomes an explicit
`Sheet` state, the remote endpoint becomes an `Env` of oracle responses,
and each source function becomes a Lean function threading that state.
-/

/-- `const DATA_START_ROW = 4` in `code.js`. -/
def DATA_START_ROW : Nat := 4

/-- One sheet row: the `hs_id` column (column A), the eleven data cells of
columns B..L (`row[0]`..`row[10]` in the source), and the sync status and
message columns. Cells are modelled as strings; an empty cell is `""`
(JS falsiness of the cell value). -/
structure SheetRow where
  hubdbRowId : String
  cells : List String
  syncStatus : String
  syncMessage : String
deriving DecidableEq

/-- The spreadsheet: `lastRow` as reported by `sheet.getLastRow()`, and a
total assignment of rows (any row can be written, as in Sheets). -/
structure Sheet where
  lastRow : Nat
  rows : Nat → SheetRow

/-- `sheet.getRange(r, col).setValue(v)` for one of the tracked columns:
update row `r` in place. -/
def Sheet.modifyRow (s : Sheet) (r : Nat) (f : SheetRow → SheetRow) : Sheet :=
  { s with rows := Function.update s.rows r (f (s.rows r)) }

/-- Write the sync status column of row `r`. -/
def setStatus (s : Sheet) (r : Nat) (v : String) : Sheet :=
  s.modifyRow r (fun row => { row with syncStatus := v })

/-- Write the sync message column of row `r`. -/
def setMessage (s : Sheet) (r : Nat) (v : String) : Sheet :=
  s.modifyRow r (fun row => { row with syncMessage := v })

/-- Write the `hs_id` column of row `r`. -/
def setHubdbId (s : Sheet) (r : Nat) (v : String) : Sheet :=
  s.modifyRow r (fun row => { row with hubdbRowId := v })

/-- `clearSyncStatusForRows(sheet, rowNumbers)`: blank out status and
message for each listed row. -/
def clearSyncStatusForRows (s : Sheet) (rowNumbers : List Nat) : Sheet :=
  rowNumbers.foldl (fun acc r => setMessage (setStatus acc r "") r "") s

/-- One extracted record (the `data` object built in `getAllSheetData`). -/
structure Record where
  date_and_time : String
  category : String
  stage : String
  player_1 : String
  player_2 : String
  results : String
  venue : String
  hubdbRowId : String
  sheetRow : Nat
deriving DecidableEq

/-- An entry of the `clearedRows` list of `getAllSheetData`. -/
structure ClearedRow where
  sheetRow : Nat
  hubdbRowId : String
deriving DecidableEq

/-- A snapshot: the JS object mapping `uniqueId -> record`, modelled as an
association list in insertion order (JS object keys are unique). -/
abbrev Snapshot := List (String × Record)

/-- JS property lookup `m[k]` on a snapshot object (first matching key). -/
def lookupRec : Snapshot → String → Option Record
  | [], _ => none
  | e :: rest, k => if e.1 = k then some e.2 else lookupRec rest k

/-- JS property assignment `m[k] = v`: replace in place if the key exists,
append otherwise. -/
def objSet (m : Snapshot) (k : String) (v : Record) : Snapshot :=
  if m.any (fun e => e.1 = k) then m.map (fun e => if e.1 = k then (k, v) else e)
  else m ++ [(k, v)]

/-- Cell `row[j]` with JS `|| ""` defaulting. -/
def rowCell (row : SheetRow) (j : Nat) : String := row.cells.getD j ""

/-- `!row[0] && ... && !row[10]`: all eleven data cells empty. -/
def rowAllEmpty (row : SheetRow) : Bool :=
  (List.range 11).all (fun j => rowCell row j = "")

/-- `!row[0] && ... && !row[4]`: the five core identifying cells empty. -/
def rowCoreEmpty (row : SheetRow) : Bool :=
  (List.range 5).all (fun j => rowCell row j = "")

/-- The `data` object built for a non-skipped row in `getAllSheetData`. -/
def recordOfRow (row : SheetRow) (actualRow : Nat) : Record :=
  { date_and_time := rowCell row 0
    category := rowCell row 1
    stage := rowCell row 2
    player_1 := rowCell row 3
    player_2 := rowCell row 4
    results := rowCell row 5
    venue := rowCell row 6
    hubdbRowId := row.hubdbRowId
    sheetRow := actualRow }

/-- `const uniqueId = hubdbRowId || "temp_" + actualRow`. -/
def uniqueIdOfRow (row : SheetRow) (actualRow : Nat) : String :=
  if row.hubdbRowId ≠ "" then row.hubdbRowId else "temp_" ++ toString actualRow

/-- The body of the `values.forEach` loop in `getAllSheetData`, processing
the row at `DATA_START_ROW + index` into the accumulated
`(allData, clearedRows)`. -/
def processRow (sheet : Sheet) (acc : Snapshot × List ClearedRow) (index : Nat) :
    Snapshot × List ClearedRow :=
  let actualRow := DATA_START_ROW + index
  let row := sheet.rows actualRow
  let isDataClearedButHasId := rowAllEmpty row && row.hubdbRowId ≠ ""
  let isCompletelyEmpty := rowAllEmpty row && row.hubdbRowId = ""
  if isDataClearedButHasId then
    (acc.1, acc.2 ++ [⟨actualRow, row.hubdbRowId⟩])
  else if isCompletelyEmpty then acc
  else if rowCoreEmpty row then acc
  else (objSet acc.1 (uniqueIdOfRow row actualRow) (recordOfRow row actualRow), acc.2)

/-- Iterate `processRow` over a list of row indices (the `forEach`). -/
def extractRows (sheet : Sheet) : List Nat → Snapshot × List ClearedRow →
    Snapshot × List ClearedRow
  | [], acc => acc
  | i :: rest, acc => extractRows sheet rest (processRow sheet acc i)

/-- `getAllSheetData(sheet, lastRow)`: read rows `DATA_START_ROW..lastRow`
and classify each into the snapshot or the cleared-rows list. -/
def getAllSheetData (sheet : Sheet) : Snapshot × List ClearedRow :=
  extractRows sheet (List.range (sheet.lastRow - DATA_START_ROW + 1)) ([], [])

/-- One entry of an UPDATED change's `changedFields` list. -/
structure FieldDelta where
  field : String
  oldValue : String
  newValue : String
deriving DecidableEq

/-- The `changedFields` property is heterogeneous in the source: the
string markers `["ALL"]` / `["DELETED"]` for NEW / DELETED changes, or a
list of per-field deltas for UPDATED changes. -/
inductive ChangedFieldsVal where
  | marker (tag : String)
  | deltas (l : List FieldDelta)
deriving DecidableEq

/-- A change object as pushed by `detectChanges` (absent JS properties are
`none`). -/
structure Change where
  type : String
  uniqueId : String
  row : Option Nat
  newData : Option Record
  oldData : Option Record
  changedFields : ChangedFieldsVal
deriving DecidableEq

/-- The `fieldsToCheck` array of `detectChanges`. -/
def fieldsToCheck : List String :=
  ["date_and_time", "category", "stage", "player_1", "player_2", "results", "venue"]

/-- JS property access `record[field]` for the tracked field names. -/
def getField (r : Record) (f : String) : String :=
  if f = "date_and_time" then r.date_and_time
  else if f = "category" then r.category
  else if f = "stage" then r.stage
  else if f = "player_1" then r.player_1
  else if f = "player_2" then r.player_2
  else if f = "results" then r.results
  else if f = "venue" then r.venue
  else ""

/-- The per-field comparison loop of `detectChanges`. -/
def diffFields (current stored : Record) : List FieldDelta :=
  fieldsToCheck.filterMap (fun field =>
    if getField current field ≠ getField stored field then
      some ⟨field, getField stored field, getField current field⟩
    else none)

/-- JS `uniqueId.startsWith("temp_")`, modelled as a character-list
prefix test (extensionally the same predicate; `String.startsWith` itself
does not reduce in the kernel). -/
def startsWithTemp (s : String) : Bool := "temp_".data.isPrefixOf s.data

/-- The body of the first `Object.keys(currentData).forEach` loop of
`detectChanges`: the NEW or UPDATED change (if any) contributed by one
current entry. -/
def changeOfCurrentEntry (storedData : Snapshot) (e : String × Record) :
    Option Change :=
  let uniqueId := e.1
  let current := e.2
  match lookupRec storedData uniqueId with
  | none =>
      if current.hubdbRowId ≠ "" ∨ startsWithTemp uniqueId then
        some { type := "NEW", uniqueId := uniqueId, row := some current.sheetRow,
               newData := some current, oldData := none,
               changedFields := .marker "ALL" }
      else none
  | some stored =>
      let changedFields := diffFields current stored
      if changedFields.length > 0 then
        some { type := "UPDATED", uniqueId := uniqueId, row := some current.sheetRow,
               newData := some current, oldData := some stored,
               changedFields := .deltas changedFields }
      else none

/-- The body of the second `Object.keys(storedData).forEach` loop of
`detectChanges`: the DELETED change (if any) contributed by one stored
entry. -/
def changeOfStoredEntry (currentData : Snapshot) (e : String × Record) :
    Option Change :=
  if (lookupRec currentData e.1).isNone then
    if e.2.hubdbRowId ≠ "" then
      some { type := "DELETED", uniqueId := e.1, row := none, newData := none,
             oldData := some e.2, changedFields := .marker "DELETED" }
    else none
  else none

/-- `detectChanges(currentData, storedData)`: NEW and UPDATED changes from
the pass over current keys, then DELETED changes from the pass over stored
keys. -/
def detectChanges (currentData storedData : Snapshot) : List Change :=
  currentData.filterMap (changeOfCurrentEntry storedData)
  ++ storedData.filterMap (changeOfStoredEntry currentData)

/-- Outcome of one `UrlFetchApp.fetch` call: a response with HTTP code,
raw text, and parsed JSON body of type `α`, or a thrown exception. -/
inductive FetchOutcome (α : Type) where
  | ok (code : Nat) (text : String) (body : α)
  | exn (msg : String)

/-- Parsed body of a `BATCH_DELETE_HUBDB_ROWS` response:
`{success, results?, message?}` with per-identity
`{hubdbId, status}` entries. A missing `results` is the empty list and a
missing `message` the empty string (JS falsy defaults). -/
structure DeleteResult where
  hubdbId : String
  status : String
deriving DecidableEq

structure BatchBody where
  success : Bool
  results : List DeleteResult
  message : String
deriving DecidableEq

/-- Parsed body of a `DELETE_HUBDB_ROW` response. -/
structure SimpleBody where
  success : Bool
  message : String
deriving DecidableEq

/-- Parsed body of a `CREATE_HUBDB_ROW` response. -/
structure CreateBody where
  success : Bool
  hubdbRowId : String
  message : String
deriving DecidableEq

/-- The remote endpoint, as an oracle fixing the response to each request
the cycle may issue. Per-row requests are keyed by the sheet row they
concern (each such row is contacted at most once per call site). -/
structure Env where
  clearedBatch : FetchOutcome BatchBody
  singleDelete : Nat → FetchOutcome SimpleBody
  create : Nat → FetchOutcome CreateBody
  dispatchBatch : FetchOutcome BatchBody
  indiv : FetchOutcome Unit

/-- `responseCode >= 200 && responseCode < 300`. -/
def is2xx (code : Nat) : Bool := decide (200 ≤ code ∧ code < 300)

/-- JS `message || "Unknown error"`. -/
def orUnknown (m : String) : String := if m = "" then "Unknown error" else m

/-- A request dispatched to the remote store, recorded in traces. The
combined individual-operations request carries the changes from which its
`gameData` payload is built. -/
inductive Request where
  | batchDelete (hubdbRowIds : List String)
  | individualOps (gameData : List Change)
deriving DecidableEq

/-- JS truthiness of an optional row number (`0` and `undefined` are
falsy). -/
def truthyNat : Option Nat → Option Nat
  | some r => if r = 0 then none else some r
  | none => none

/-- `change.oldData?.sheetRow` as a truthy value. -/
def Change.oldRow (c : Change) : Option Nat :=
  truthyNat (c.oldData.map (fun od => od.sheetRow))

/-- `change.row || change.oldData?.sheetRow` as used by
`updateSyncStatusForChanges` and `updateRowsAfterFailure`. -/
def Change.targetRow (c : Change) : Option Nat :=
  match truthyNat c.row with
  | some r => some r
  | none => c.oldRow

/-- `updateSyncStatusForChanges(changes, sheet, status)`. -/
def updateSyncStatusForChanges (changes : List Change) (sheet : Sheet)
    (status : String) : Sheet :=
  changes.foldl (fun s c =>
    match c.targetRow with
    | some r => setStatus s r status
    | none => s) sheet

/-- `updateRowAfterSuccessfulDelete(sheet, sheetRow)`. -/
def updateRowAfterSuccessfulDelete (sheet : Sheet) (sheetRow : Nat) : Sheet :=
  setMessage (setStatus (setHubdbId sheet sheetRow "") sheetRow "deleted")
    sheetRow "Successfully deleted from HubDB"

/-- `updateRowWithError(sheet, sheetRow, errorMessage)`. -/
def updateRowWithError (sheet : Sheet) (sheetRow : Nat) (errorMessage : String) :
    Sheet :=
  setMessage (setStatus sheet sheetRow "error") sheetRow errorMessage

/-- The `deleteChanges.forEach` error-marking loop shared verbatim by
`handleBatchDeleteFailure`, `handleBatchDeleteError` and the
`success=false` branch of `handleBatchDeleteSuccess`: mark every change
with a truthy `oldData?.sheetRow` with an error status. -/
def markDeleteErrors (deleteChanges : List Change) (sheet : Sheet)
    (errorMessage : String) : Sheet :=
  deleteChanges.foldl (fun s c =>
    match c.oldRow with
    | some r => updateRowWithError s r errorMessage
    | none => s) sheet

/-- The body of the `deleteChanges.forEach` loop in the `success=true`
branch of `handleBatchDeleteSuccess`: classify one delete target from the
per-identity results (skipping changes without a truthy
`oldData?.sheetRow`). -/
def batchDeleteRowUpdate (successfulDeletions : List DeleteResult) (s : Sheet)
    (c : Change) : Sheet :=
  match c.oldRow with
  | none => s
  | some r =>
      if successfulDeletions.any (fun res =>
          res.hubdbId = (c.oldData.map (fun od => od.hubdbRowId)).getD "") then
        updateRowAfterSuccessfulDelete s r
      else
        updateRowWithError s r "Batch deletion failed"

/-- `handleBatchDeleteSuccess(deleteChanges, sheet, responseText)` with
the response body already parsed. -/
def handleBatchDeleteSuccess (deleteChanges : List Change) (sheet : Sheet)
    (body : BatchBody) : Sheet :=
  if body.success then
    let successfulDeletions := body.results.filter (fun r => r.status = "success")
    deleteChanges.foldl (batchDeleteRowUpdate successfulDeletions) sheet
  else
    markDeleteErrors deleteChanges sheet
      ("Batch deletion failed: " ++ orUnknown body.message)

/-- `handleBatchDeleteFailure(...)`: mark every delete target with the
HTTP error and push all deletes onto `otherChanges`. -/
def handleBatchDeleteFailure (deleteChanges : List Change) (sheet : Sheet)
    (responseCode : Nat) (responseText : String) (otherChanges : List Change) :
    Sheet × List Change :=
  (markDeleteErrors deleteChanges sheet
      ("HTTP " ++ toString responseCode ++ ": " ++ responseText),
   otherChanges ++ deleteChanges)

/-- `handleBatchDeleteError(...)`: mark every delete target with the
exception and push all deletes onto `otherChanges`. -/
def handleBatchDeleteError (deleteChanges : List Change) (sheet : Sheet)
    (msg : String) (otherChanges : List Change) : Sheet × List Change :=
  (markDeleteErrors deleteChanges sheet ("Exception: " ++ msg),
   otherChanges ++ deleteChanges)

/-- The `hubdbRowIds` payload field of `processBatchDeletes`:
`deleteChanges.map(c => c.oldData?.hubdbRowId).filter(id => id)`. -/
def batchDeleteIds (deleteChanges : List Change) : List String :=
  deleteChanges.filterMap (fun c =>
    match c.oldData with
    | some od => if od.hubdbRowId = "" then none else some od.hubdbRowId
    | none => none)

/-- `processBatchDeletes(deleteChanges, sheet, otherChanges)`: mark the
targets as syncing, issue the batch-delete request, and handle the
response. Returns the sheet, the (possibly grown) `otherChanges`, and the
requests issued. -/
def processBatchDeletes (resp : FetchOutcome BatchBody)
    (deleteChanges : List Change) (sheet : Sheet) (otherChanges : List Change) :
    Sheet × List Change × List Request :=
  let req := Request.batchDelete (batchDeleteIds deleteChanges)
  let sheet1 := updateSyncStatusForChanges deleteChanges sheet "syncing"
  match resp with
  | .exn msg =>
      let p := handleBatchDeleteError deleteChanges sheet1 msg otherChanges
      (p.1, p.2, [req])
  | .ok code text body =>
      if is2xx code then
        (handleBatchDeleteSuccess deleteChanges sheet1 body, otherChanges, [req])
      else
        let p := handleBatchDeleteFailure deleteChanges sheet1 code text otherChanges
        (p.1, p.2, [req])

/-- `updateRowsAfterSuccess(changes, sheet)`. -/
def updateRowsAfterSuccess (changes : List Change) (sheet : Sheet) : Sheet :=
  changes.foldl (fun s c =>
    if c.type = "DELETED" ∧ c.oldRow.isSome then
      updateRowAfterSuccessfulDelete s (c.oldRow.getD 0)
    else
      match truthyNat c.row with
      | some r =>
          setMessage (setStatus s r "sync success") r
            (c.type ++ " operation completed successfully")
      | none => s) sheet

/-- `updateRowsAfterFailure(changes, sheet, responseCode, responseText)`. -/
def updateRowsAfterFailure (changes : List Change) (sheet : Sheet)
    (responseCode : Nat) (responseText : String) : Sheet :=
  let errorMessage := "HTTP " ++ toString responseCode ++ ": " ++ responseText
  changes.foldl (fun s c =>
    match c.targetRow with
    | some r => updateRowWithError s r errorMessage
    | none => s) sheet

/-- `processIndividualOperations(otherChanges, sheet)`: mark targets as
syncing, issue the combined individual-operations request, and update row
statuses from the outcome. The boolean is `true` exactly when the source
throws (non-2xx response, or the fetch itself throwing). -/
def processIndividualOperations (env : Env) (otherChanges : List Change)
    (sheet : Sheet) : Sheet × Request × Bool :=
  let sheet1 := updateSyncStatusForChanges otherChanges sheet "syncing"
  let req := Request.individualOps otherChanges
  match env.indiv with
  | .exn _ => (sheet1, req, true)
  | .ok code text _ =>
      if is2xx code then (updateRowsAfterSuccess otherChanges sheet1, req, false)
      else (updateRowsAfterFailure otherChanges sheet1 code text, req, true)

/-- Result of `sendToHubSpot`: final sheet, the requests issued in order,
and whether the call threw (the fatal combined-request failure). -/
structure SendResult where
  sheet : Sheet
  trace : List Request
  failed : Bool

/-- `sendToHubSpot(changes, sheet)`: clear statuses, partition into
deletes and others, batch the deletes when more than one, fold a single
delete into the others, and send the rest as one combined request. -/
def sendToHubSpot (env : Env) (changes : List Change) (sheet : Sheet) : SendResult :=
  let rowsToProcess := changes.filterMap (fun c => truthyNat c.row)
  let sheet1 := if 0 < rowsToProcess.length then clearSyncStatusForRows sheet rowsToProcess
                else sheet
  let deleteChanges := changes.filter (fun c => c.type = "DELETED")
  let otherChanges := changes.filter (fun c => ¬ c.type = "DELETED")
  if 1 < deleteChanges.length then
    let p := processBatchDeletes env.dispatchBatch deleteChanges sheet1 otherChanges
    if 0 < p.2.1.length then
      let q := processIndividualOperations env p.2.1 p.1
      ⟨q.1, p.2.2 ++ [q.2.1], q.2.2⟩
    else ⟨p.1, p.2.2, false⟩
  else
    let otherChanges2 := if deleteChanges.length = 1 then otherChanges ++ deleteChanges
                         else otherChanges
    if 0 < otherChanges2.length then
      let q := processIndividualOperations env otherChanges2 sheet1
      ⟨q.1, [q.2.1], q.2.2⟩
    else ⟨sheet1, [], false⟩

/-- `handleSingleClearedRow(clearedRow, sheet)`: one `DELETE_HUBDB_ROW`
request for a cleared row; every outcome is recorded on the row and
exceptions are caught internally. -/
def handleSingleClearedRow (env : Env) (cr : ClearedRow) (sheet : Sheet) : Sheet :=
  let sheet1 := setStatus sheet cr.sheetRow "syncing"
  match env.singleDelete cr.sheetRow with
  | .exn msg =>
      setMessage (setStatus sheet1 cr.sheetRow "error") cr.sheetRow
        ("Exception: " ++ msg)
  | .ok code text body =>
      if is2xx code then
        if body.success then
          setMessage
            (setStatus (setHubdbId sheet1 cr.sheetRow "") cr.sheetRow "deleted")
            cr.sheetRow "Successfully deleted from HubDB"
        else
          setMessage (setStatus sheet1 cr.sheetRow "error") cr.sheetRow
            ("Deletion failed: " ++ orUnknown body.message)
      else
        setMessage (setStatus sheet1 cr.sheetRow "error") cr.sheetRow
          ("HTTP " ++ toString code ++ ": " ++ text)

/-- The error-marking `clearedRows.forEach` loops of
`handleBatchClearedRows`. -/
def markClearedErrors (clearedRows : List ClearedRow) (sheet : Sheet)
    (errorMessage : String) : Sheet :=
  clearedRows.foldl (fun s cr =>
    setMessage (setStatus s cr.sheetRow "error") cr.sheetRow errorMessage) sheet

/-- The individual-deletion fallback loops of `handleBatchClearedRows`. -/
def fallbackSingleDeletes (env : Env) (clearedRows : List ClearedRow)
    (sheet : Sheet) : Sheet :=
  clearedRows.foldl (fun s cr => handleSingleClearedRow env cr s) sheet

/-- `handleBatchClearedRows(clearedRows, sheet)`: one
`BATCH_DELETE_HUBDB_ROWS` request for all cleared rows, with per-row
status classification on success and an individual-deletion fallback on
overall failure. -/
def handleBatchClearedRows (env : Env) (clearedRows : List ClearedRow)
    (sheet : Sheet) : Sheet :=
  let hubdbRowIds := clearedRows.filterMap (fun cr =>
    if cr.hubdbRowId = "" then none else some cr.hubdbRowId)
  if hubdbRowIds.length = 0 then sheet
  else
    let sheet1 := clearedRows.foldl (fun s cr => setStatus s cr.sheetRow "syncing") sheet
    match env.clearedBatch with
    | .exn msg =>
        let sheet2 := markClearedErrors clearedRows sheet1 ("Exception: " ++ msg)
        fallbackSingleDeletes env clearedRows sheet2
    | .ok code text body =>
        if is2xx code then
          if body.success then
            let successfulDeletions := body.results.filter (fun r => r.status = "success")
            clearedRows.foldl (fun s cr =>
              if successfulDeletions.any (fun res => res.hubdbId = cr.hubdbRowId) then
                setMessage
                  (setStatus (setHubdbId s cr.sheetRow "") cr.sheetRow "deleted")
                  cr.sheetRow "Successfully deleted from HubDB"
              else
                setMessage (setStatus s cr.sheetRow "error") cr.sheetRow
                  "Batch deletion failed") sheet1
          else
            let sheet2 := markClearedErrors clearedRows sheet1
              ("Batch deletion failed: " ++ orUnknown body.message)
            fallbackSingleDeletes env clearedRows sheet2
        else
          let sheet2 := markClearedErrors clearedRows sheet1
            ("HTTP " ++ toString code ++ ": " ++ text)
          fallbackSingleDeletes env clearedRows sheet2

/-- `handleClearedRows(clearedRows, sheet)`: clear statuses, then batch
when more than one row was cleared, else a single deletion. -/
def handleClearedRows (env : Env) (clearedRows : List ClearedRow)
    (sheet : Sheet) : Sheet :=
  match clearedRows with
  | [] => sheet
  | c :: rest =>
      let sheet1 := clearSyncStatusForRows sheet ((c :: rest).map (fun cr => cr.sheetRow))
      if rest.length = 0 then handleSingleClearedRow env c sheet1
      else handleBatchClearedRows env (c :: rest) sheet1

/-- An entry of the `rowsNeedingCreation` list. -/
structure CreationRow where
  uniqueId : String
  data : Record
  sheetRow : Nat
deriving DecidableEq

/-- JS `Set.add`: append if not already present (insertion order kept). -/
def insertUnique (l : List String) (x : String) : List String :=
  if x ∈ l then l else l ++ [x]

/-- The `changedUniqueIds` set of `findRowsNeedingHubDBCreation`: ids of
NEW/UPDATED changes when there are changes, else every key of the
snapshot. -/
def changedUniqueIds (allData : Snapshot) (changes : List Change) : List String :=
  if 0 < changes.length then
    changes.foldl (fun acc c =>
      if c.type = "NEW" ∨ c.type = "UPDATED" then insertUnique acc c.uniqueId
      else acc) []
  else
    allData.foldl (fun acc e => insertUnique acc e.1) []

/-- The body of the `changedUniqueIds.forEach` loop of
`findRowsNeedingHubDBCreation`: the creation entry (if any) contributed
by one unique id (skipped when the id has no record, lacks a required
field, or already has a HubDB row id). -/
def creationRowOf (allData : Snapshot) (uniqueId : String) : Option CreationRow :=
  match lookupRec allData uniqueId with
  | none => none
  | some data =>
      let hasRequiredData :=
        data.date_and_time ≠ "" ∧ data.player_1 ≠ "" ∧ data.player_2 ≠ ""
      let missingHubDBRowId := data.hubdbRowId = ""
      if hasRequiredData ∧ missingHubDBRowId then
        some ⟨uniqueId, data, data.sheetRow⟩
      else none

/-- `findRowsNeedingHubDBCreation(allData, sheet, changes)`: among the
changed (or all) unique ids, keep the records that have the required
date/time and both players but no HubDB row id yet. -/
def findRowsNeedingHubDBCreation (allData : Snapshot) (changes : List Change) :
    List CreationRow :=
  (changedUniqueIds allData changes).foldl (fun acc uniqueId =>
    acc ++ (creationRowOf allData uniqueId).toList) []

/-- `createHubDBRows(rowsNeedingCreation, sheet)`: sequentially issue one
`CREATE_HUBDB_ROW` request per row, binding the returned id into the
`hs_id` column on success; failures (including the rethrown non-2xx
error) are caught per row and recorded as an error status. -/
def createHubDBRows (env : Env) (rowsNeedingCreation : List CreationRow)
    (sheet : Sheet) : Sheet :=
  let sheet0 := clearSyncStatusForRows sheet (rowsNeedingCreation.map (fun r => r.sheetRow))
  rowsNeedingCreation.foldl (fun s ri =>
    let s1 := setStatus s ri.sheetRow "syncing"
    match env.create ri.sheetRow with
    | .exn msg =>
        setMessage (setStatus s1 ri.sheetRow "error") ri.sheetRow
          ("Exception: " ++ msg)
    | .ok code text body =>
        if is2xx code then
          if body.success ∧ body.hubdbRowId ≠ "" then
            setMessage
              (setStatus (setHubdbId s1 ri.sheetRow body.hubdbRowId) ri.sheetRow
                "sync success")
              ri.sheetRow "HubDB row created successfully"
          else
            setMessage (setStatus s1 ri.sheetRow "error") ri.sheetRow
              ("Creation failed: " ++ orUnknown body.message)
        else
          let s2 := setMessage (setStatus s1 ri.sheetRow "error") ri.sheetRow
            ("HTTP " ++ toString code ++ ": " ++ text)
          setMessage (setStatus s2 ri.sheetRow "error") ri.sheetRow
            ("Exception: HubDB creation failed: " ++ toString code ++ " - " ++ text))
    sheet0

/-- The `changesWithHubDBId` filter of `syncAllData`: a DELETED change
needs `oldData?.hubdbRowId` truthy, any other change
`newData?.hubdbRowId` truthy. -/
def hasHubDBId (c : Change) : Bool :=
  if c.type = "DELETED" then
    match c.oldData with
    | some od => od.hubdbRowId ≠ ""
    | none => false
  else
    match c.newData with
    | some nd => nd.hubdbRowId ≠ ""
    | none => false

/-- Result of one sync cycle: final sheet, final persisted baseline
(`GAME_DATA` script property), and whether the cycle ended in the fatal
combined-request failure (the exception caught at the top of
`syncAllData`). -/
structure CycleResult where
  sheet : Sheet
  stored : Snapshot
  fatal : Bool

/-- `syncAllData()` with the persisted baseline passed and returned
explicitly: extract, handle cleared rows, diff against the baseline,
provision missing HubDB rows (storing the refreshed snapshot when any
were provisioned), dispatch the changes carrying HubDB ids, and store the
extracted snapshot at the end when nothing was provisioned. -/
def syncAllData (env : Env) (sheet0 : Sheet) (stored0 : Snapshot) : CycleResult :=
  let ex := getAllSheetData sheet0
  let allData := ex.1
  let clearedRows := ex.2
  let sheet1 := if 0 < clearedRows.length then handleClearedRows env clearedRows sheet0
                else sheet0
  let changes := detectChanges allData stored0
  let rowsNeedingHubDBCreation := findRowsNeedingHubDBCreation allData changes
  let step2 :=
    if 0 < rowsNeedingHubDBCreation.length then
      let s := createHubDBRows env rowsNeedingHubDBCreation sheet1
      (s, (getAllSheetData s).1)
    else (sheet1, stored0)
  let sheet2 := step2.1
  let stored1 := step2.2
  if 0 < changes.length then
    let changesWithHubDBId := changes.filter hasHubDBId
    if 0 < changesWithHubDBId.length then
      let r := sendToHubSpot env changesWithHubDBId sheet2
      if r.failed then ⟨r.sheet, stored1, true⟩
      else if rowsNeedingHubDBCreation.length = 0 then ⟨r.sheet, allData, false⟩
      else ⟨r.sheet, stored1, false⟩
    else
      if rowsNeedingHubDBCreation.length = 0 then ⟨sheet2, allData, false⟩
      else ⟨sheet2, stored1, false⟩
  else ⟨sheet2, stored1, false⟩

/-- All changes of `detectChanges` concerning one `uniqueId`. -/
def changesFor (uid : String) (l : List Change) : List Change :=
  l.filter (fun ch => ch.uniqueId = uid)

/-- Sample record builder for concrete witness instantiations. -/
def sampleRec (p1 p2 res id : String) (row : Nat) : Record :=
  { date_and_time := "2025-07-01 10:00", category := "U17", stage := "QF",
    player_1 := p1, player_2 := p2, results := res, venue := "Kallang",
    hubdbRowId := id, sheetRow := row }

def w4cur : Record := sampleRec "Tan" "Lee" "" "7" 4

def w4old : Record := sampleRec "Tan" "Lee" "6-4" "7" 4

def w3new : Record := sampleRec "Tan" "Lee" "" "" 4

def w3del : Record := sampleRec "Ann" "Bea" "6-2" "X" 5

def w3gone : Record := sampleRec "Cid" "Dee" "" "" 6

def w3cur : Snapshot := [("temp_4", w3new)]

def w3stored : Snapshot := [("X", w3del), ("Y", w3gone)]

/-- An all-empty sheet row for witness sheets. -/
def blankRow : SheetRow := ⟨"", ["", "", "", "", "", "", "", "", "", "", ""], "", ""⟩

def w6rec : Record := sampleRec "Ann" "Bea" "6-2" "X" 5

def w6new : Record := sampleRec "Tan" "Lee" "" "R9" 4

def w6del : Change :=
  { type := "DELETED", uniqueId := "X", row := none, newData := none,
    oldData := some w6rec, changedFields := ChangedFieldsVal.marker "DELETED" }

def w6upd : Change :=
  { type := "UPDATED", uniqueId := "R9", row := some 4, newData := some w6new,
    oldData := some w6new, changedFields := ChangedFieldsVal.deltas [] }

def w6sheet : Sheet := ⟨6, fun _ => blankRow⟩

def w6env : Env :=
  { clearedBatch := FetchOutcome.exn "unused",
    singleDelete := fun _ => FetchOutcome.exn "unused",
    create := fun _ => FetchOutcome.exn "unused",
    dispatchBatch := FetchOutcome.exn "unused",
    indiv := FetchOutcome.ok 200 "[]" () }

/-- A batch-delete attempt counts as failed when the response is an
exception, a non-2xx response, or a 2xx response whose body reports
overall failure. -/
def batchRespFails (resp : FetchOutcome BatchBody) : Prop :=
  match resp with
  | .exn _ => True
  | .ok code _ body => is2xx code = false ∨ body.success = false

/-- The failure cases in which `processBatchDeletes` falls back by moving
the deletes into the individual-operations list: a thrown exception or a
non-2xx response — but not a 2xx response reporting overall failure. -/
def batchRespMoves (resp : FetchOutcome BatchBody) : Bool :=
  match resp with
  | .exn _ => true
  | .ok code _ _ => !(is2xx code)

/-- A DELETED change exactly as `detectChanges` constructs it. -/
def deletedChange (uid : String) (old : Record) : Change :=
  { type := "DELETED", uniqueId := uid, row := none, newData := none,
    oldData := some old, changedFields := ChangedFieldsVal.marker "DELETED" }

def c2recA : Record := sampleRec "Ann" "Bea" "" "DA" 4

def c2recB : Record := sampleRec "Cid" "Dee" "" "DB" 5

def c2delA : Change := deletedChange "DA" c2recA

def c2delB : Change := deletedChange "DB" c2recB

def c2sheet : Sheet := ⟨6, fun _ => blankRow⟩

def c2resp : FetchOutcome BatchBody :=
  FetchOutcome.ok 200 "body" ⟨false, [], "boom"⟩

def w5recA : Record := sampleRec "Ann" "Bea" "" "A1" 4

def w5recB : Record := sampleRec "Cid" "Dee" "" "B1" 5

def w5recC : Record := sampleRec "Eve" "Fay" "" "C1" 6

def w5rs : List DeleteResult :=
  [⟨"A1", "success"⟩, ⟨"B1", "failed"⟩, ⟨"C1", "success"⟩]

def w5sheet : Sheet := ⟨6, fun _ => blankRow⟩

def w7orphanRow : SheetRow := ⟨"ORPH", ["", "", "", "", "", "", "", "", "", "", ""], "", ""⟩

def w7sheet : Sheet := ⟨5, fun r => if r = 5 then w7orphanRow else blankRow⟩

def w10row : SheetRow := ⟨"Z9", ["", "", "", "", "", "6-0", "", "", "", "", ""], "", ""⟩

def w10sheet : Sheet := ⟨4, fun _ => w10row⟩

def c1row : SheetRow :=
  ⟨"", ["2025-07-01", "", "", "Tan", "Lee", "", "", "", "", "", ""], "", ""⟩

def c1sheet : Sheet := ⟨4, fun _ => c1row⟩

def c1stored : Snapshot := [("X", sampleRec "Old" "Match" "" "X" 5)]

def c1env : Env :=
  { clearedBatch := FetchOutcome.exn "unused",
    singleDelete := fun _ => FetchOutcome.exn "unused",
    create := fun _ => FetchOutcome.ok 200 "t" ⟨true, "R1", ""⟩,
    dispatchBatch := FetchOutcome.exn "unused",
    indiv := FetchOutcome.ok 500 "err" () }

def w1row : SheetRow :=
  ⟨"R7", ["2025-07-01", "", "", "Tan", "Lee", "6-4", "", "", "", "", ""], "", ""⟩

def w1sheet : Sheet := ⟨4, fun _ => w1row⟩

def w1old : Record :=
  { date_and_time := "2025-07-01", category := "", stage := "", player_1 := "Tan",
    player_2 := "Lee", results := "6-2", venue := "", hubdbRowId := "R7",
    sheetRow := 4 }

def w1stored : Snapshot := [("R7", w1old)]

def w1env : Env :=
  { clearedBatch := FetchOutcome.exn "unused",
    singleDelete := fun _ => FetchOutcome.exn "unused",
    create := fun _ => FetchOutcome.exn "unused",
    dispatchBatch := FetchOutcome.exn "unused",
    indiv := FetchOutcome.ok 500 "boom" () }

/-! ### Lemmas about snapshot lookup and the change-detector passes -/

theorem lookupRec_mem : ∀ {sn : Snapshot} {k : String} {v : Record},
    lookupRec sn k = some v → (k, v) ∈ sn := by
  intro sn
  induction sn with
  | nil => intro k v h; simp [lookupRec] at h
  | cons e rest ih =>
    intro k v h
    by_cases he : e.1 = k
    · rw [lookupRec, if_pos he] at h
      obtain ⟨k1, v1⟩ := e
      simp only at he
      injection h with h2
      subst he; subst h2
      exact List.mem_cons_self _ _
    · rw [lookupRec, if_neg he] at h
      exact List.mem_cons_of_mem _ (ih h)

theorem keys_ne_of_lookupRec_eq_none : ∀ {sn : Snapshot} {k : String},
    lookupRec sn k = none → ∀ e ∈ sn, e.1 ≠ k := by
  intro sn
  induction sn with
  | nil => intro k _ e he; exact absurd he (List.not_mem_nil e)
  | cons a rest ih =>
    intro k hl e he
    rw [lookupRec] at hl
    split at hl
    · exact Option.noConfusion hl
    · next hne =>
      rcases List.mem_cons.mp he with h1 | h2
      · subst h1; exact hne
      · exact ih hl e h2

theorem changeOfCurrentEntry_uniqueId {sd : Snapshot} {e : String × Record}
    {ch : Change} (h : changeOfCurrentEntry sd e = some ch) : ch.uniqueId = e.1 := by
  unfold changeOfCurrentEntry at h
  dsimp only at h
  split at h
  · split at h
    · injection h with h2; subst h2; rfl
    · exact absurd h (by simp)
  · split at h
    · injection h with h2; subst h2; rfl
    · exact absurd h (by simp)

theorem changeOfStoredEntry_uniqueId {cur : Snapshot} {e : String × Record}
    {ch : Change} (h : changeOfStoredEntry cur e = some ch) : ch.uniqueId = e.1 := by
  unfold changeOfStoredEntry at h
  split at h
  · split at h
    · injection h with h2; subst h2; rfl
    · exact absurd h (by simp)
  · exact absurd h (by simp)

/-- A pass over entries whose keys avoid `uid` contributes nothing to the
changes for `uid`. -/
theorem filter_filterMap_eq_nil {α : Type} (g : α → Option Change)
    (key : α → String) (huid : ∀ a ch, g a = some ch → ch.uniqueId = key a)
    (uid : String) :
    ∀ (l : List α), (∀ a ∈ l, key a ≠ uid) →
    (l.filterMap g).filter (fun ch => ch.uniqueId = uid) = [] := by
  intro l
  induction l with
  | nil => intro _; rfl
  | cons a rest ih =>
    intro h
    rw [List.filterMap_cons]
    cases hga : g a with
    | none => exact ih (fun b hb => h b (List.mem_cons_of_mem _ hb))
    | some ch =>
      have hne : ch.uniqueId ≠ uid := (huid a ch hga) ▸ h a (List.mem_cons_self _ _)
      rw [List.filter_cons]
      simp only [hne, decide_False, if_neg, Bool.false_eq_true, not_false_iff]
      exact ih (fun b hb => h b (List.mem_cons_of_mem _ hb))

/-- With unique keys, the changes for `uid` out of the current-entries
pass are exactly those contributed by `uid`'s own entry. -/
theorem filter_currentPass (sd : Snapshot) (uid : String) (c : Record) :
    ∀ (cur : Snapshot), (cur.map Prod.fst).Nodup → lookupRec cur uid = some c →
    (cur.filterMap (changeOfCurrentEntry sd)).filter (fun ch => ch.uniqueId = uid) =
      (changeOfCurrentEntry sd (uid, c)).toList := by
  intro cur
  induction cur with
  | nil => intro _ h; simp [lookupRec] at h
  | cons e rest ih =>
    intro hnd hl
    rw [List.map_cons, List.nodup_cons] at hnd
    obtain ⟨hnotin, hnd'⟩ := hnd
    by_cases he : e.1 = uid
    · rw [lookupRec, if_pos he] at hl
      injection hl with hl2
      have hrest : (rest.filterMap (changeOfCurrentEntry sd)).filter
          (fun ch => ch.uniqueId = uid) = [] := by
        refine filter_filterMap_eq_nil _ Prod.fst
          (fun a ch h => changeOfCurrentEntry_uniqueId h) uid rest ?_
        intro a ha hak
        apply hnotin
        rw [he, ← hak]
        exact List.mem_map_of_mem Prod.fst ha
      have heq : (uid, c) = e := by
        obtain ⟨k1, v1⟩ := e
        simp only at he hl2
        rw [he, hl2]
      rw [List.filterMap_cons]
      cases hge : changeOfCurrentEntry sd e with
      | none => rw [heq, hge]; exact hrest
      | some ch =>
        have hchu : ch.uniqueId = uid := he ▸ changeOfCurrentEntry_uniqueId hge
        rw [List.filter_cons]
        simp only [hchu, decide_True, if_pos]
        rw [hrest, heq, hge]
        rfl
    · rw [lookupRec, if_neg he] at hl
      rw [List.filterMap_cons]
      cases hge : changeOfCurrentEntry sd e with
      | none => exact ih hnd' hl
      | some ch =>
        have hne : ch.uniqueId ≠ uid := (changeOfCurrentEntry_uniqueId hge) ▸ he
        rw [List.filter_cons]
        simp only [hne, decide_False, if_neg, Bool.false_eq_true, not_false_iff]
        exact ih hnd' hl

/-- Counterpart of `filter_currentPass` for the stored-entries pass. -/
theorem filter_storedPass (cur : Snapshot) (uid : String) (s : Record) :
    ∀ (sd : Snapshot), (sd.map Prod.fst).Nodup → lookupRec sd uid = some s →
    (sd.filterMap (changeOfStoredEntry cur)).filter (fun ch => ch.uniqueId = uid) =
      (changeOfStoredEntry cur (uid, s)).toList := by
  intro sd
  induction sd with
  | nil => intro _ h; simp [lookupRec] at h
  | cons e rest ih =>
    intro hnd hl
    rw [List.map_cons, List.nodup_cons] at hnd
    obtain ⟨hnotin, hnd'⟩ := hnd
    by_cases he : e.1 = uid
    · rw [lookupRec, if_pos he] at hl
      injection hl with hl2
      have hrest : (rest.filterMap (changeOfStoredEntry cur)).filter
          (fun ch => ch.uniqueId = uid) = [] := by
        refine filter_filterMap_eq_nil _ Prod.fst
          (fun a ch h => changeOfStoredEntry_uniqueId h) uid rest ?_
        intro a ha hak
        apply hnotin
        rw [he, ← hak]
        exact List.mem_map_of_mem Prod.fst ha
      have heq : (uid, s) = e := by
        obtain ⟨k1, v1⟩ := e
        simp only at he hl2
        rw [he, hl2]
      rw [List.filterMap_cons]
      cases hge : changeOfStoredEntry cur e with
      | none => rw [heq, hge]; exact hrest
      | some ch =>
        have hchu : ch.uniqueId = uid := he ▸ changeOfStoredEntry_uniqueId hge
        rw [List.filter_cons]
        simp only [hchu, decide_True, if_pos]
        rw [hrest, heq, hge]
        rfl
    · rw [lookupRec, if_neg he] at hl
      rw [List.filterMap_cons]
      cases hge : changeOfStoredEntry cur e with
      | none => exact ih hnd' hl
      | some ch =>
        have hne : ch.uniqueId ≠ uid := (changeOfStoredEntry_uniqueId hge) ▸ he
        rw [List.filter_cons]
        simp only [hne, decide_False, if_neg, Bool.false_eq_true, not_false_iff]
        exact ih hnd' hl

/-- Absent-key version for the current-entries pass. -/
theorem filter_currentPass_none (sd : Snapshot) (uid : String) (cur : Snapshot)
    (hl : lookupRec cur uid = none) :
    (cur.filterMap (changeOfCurrentEntry sd)).filter
      (fun ch => ch.uniqueId = uid) = [] :=
  filter_filterMap_eq_nil _ Prod.fst (fun _ _ h => changeOfCurrentEntry_uniqueId h)
    uid cur (keys_ne_of_lookupRec_eq_none hl)

/-- Absent-key version for the stored-entries pass. -/
theorem filter_storedPass_none (cur : Snapshot) (uid : String) (sd : Snapshot)
    (hl : lookupRec sd uid = none) :
    (sd.filterMap (changeOfStoredEntry cur)).filter
      (fun ch => ch.uniqueId = uid) = [] :=
  filter_filterMap_eq_nil _ Prod.fst (fun _ _ h => changeOfStoredEntry_uniqueId h)
    uid sd (keys_ne_of_lookupRec_eq_none hl)

/-- Rewriting a guarded `filterMap` as a `map` over a `filter`. -/
theorem filterMap_ite_eq_map_filter {α β : Type} (p : α → Prop) [DecidablePred p]
    (h : α → β) : ∀ (l : List α),
    l.filterMap (fun a => if p a then some (h a) else none) =
      (l.filter (fun a => p a)).map h := by
  intro l
  induction l with
  | nil => rfl
  | cons x xs ih =>
    by_cases hx : p x <;> simp [List.filterMap_cons, List.filter_cons, hx, ih]

/-- `diffFields` lists one delta per differing tracked field, with the
stored value as `oldValue` and the current value as `newValue`. -/
theorem diffFields_eq_map_filter (c s : Record) :
    diffFields c s =
      (fieldsToCheck.filter (fun f => getField c f ≠ getField s f)).map
        (fun f => ⟨f, getField s f, getField c f⟩) :=
  filterMap_ite_eq_map_filter _ _ fieldsToCheck

/-- C9: the change detector is a pure function of its two snapshot
arguments, so running it twice on the same snapshots yields identical
change lists. -/
theorem detectChanges_deterministic (currentData storedData : Snapshot) :
    detectChanges currentData storedData = detectChanges currentData storedData := rfl

/-- C4: for a `uniqueId` present in both snapshots, the change list holds
exactly one UPDATED change when at least one of the seven tracked fields
differs — whose `changedFields` has exactly one entry per differing field,
with `oldValue` from the baseline record and `newValue` from the current
record — and no change for that id otherwise. -/
theorem detectChanges_updated_exact
    (currentData storedData : Snapshot) (uid : String) (c s : Record)
    (hcn : (currentData.map Prod.fst).Nodup)
    (hsn : (storedData.map Prod.fst).Nodup)
    (hc : lookupRec currentData uid = some c)
    (hs : lookupRec storedData uid = some s) :
    changesFor uid (detectChanges currentData storedData) =
      if fieldsToCheck.filter (fun f => getField c f ≠ getField s f) = [] then []
      else [{ type := "UPDATED", uniqueId := uid, row := some c.sheetRow,
              newData := some c, oldData := some s,
              changedFields := ChangedFieldsVal.deltas
                ((fieldsToCheck.filter (fun f => getField c f ≠ getField s f)).map
                  (fun f => ⟨f, getField s f, getField c f⟩)) }] := by
  unfold changesFor detectChanges
  rw [List.filter_append,
    filter_currentPass storedData uid c currentData hcn hc,
    filter_storedPass currentData uid s storedData hsn hs]
  have hst : changeOfStoredEntry currentData (uid, s) = none := by
    unfold changeOfStoredEntry
    rw [hc]
    rfl
  rw [hst]
  have hcur : changeOfCurrentEntry storedData (uid, c) =
      if (diffFields c s).length > 0 then
        some { type := "UPDATED", uniqueId := uid, row := some c.sheetRow,
               newData := some c, oldData := some s,
               changedFields := ChangedFieldsVal.deltas (diffFields c s) }
      else none := by
    simp only [changeOfCurrentEntry]
    rw [hs]
  rw [hcur, diffFields_eq_map_filter c s]
  by_cases hF : fieldsToCheck.filter (fun f => getField c f ≠ getField s f) = []
  · rw [if_pos hF, hF]
    rfl
  · rw [if_neg hF]
    rw [if_pos]
    · rfl
    · rw [List.length_map]
      exact List.length_pos.mpr hF

/-- C3: a `uniqueId` present only in the current snapshot yields exactly
one NEW change; one present only in the baseline yields exactly one
DELETED change when its baseline record carries a remote identity and no
change at all otherwise. The current snapshot is assumed well-formed in
the data model's sense: every record's key is its remote identity or a
`temp_` placeholder (which `getAllSheetData` guarantees, see
`getAllSheetData_wellformed`). -/
theorem detectChanges_new_deleted_exact
    (currentData storedData : Snapshot) (uid : String)
    (hcn : (currentData.map Prod.fst).Nodup)
    (hsn : (storedData.map Prod.fst).Nodup)
    (hwf : ∀ e ∈ currentData, e.2.hubdbRowId ≠ "" ∨ startsWithTemp e.1) :
    (∀ c : Record, lookupRec currentData uid = some c →
       lookupRec storedData uid = none →
       changesFor uid (detectChanges currentData storedData) =
         [{ type := "NEW", uniqueId := uid, row := some c.sheetRow,
            newData := some c, oldData := none,
            changedFields := ChangedFieldsVal.marker "ALL" }]) ∧
    (∀ s : Record, lookupRec currentData uid = none →
       lookupRec storedData uid = some s →
       ((s.hubdbRowId ≠ "" →
           changesFor uid (detectChanges currentData storedData) =
             [{ type := "DELETED", uniqueId := uid, row := none, newData := none,
                oldData := some s,
                changedFields := ChangedFieldsVal.marker "DELETED" }]) ∧
        (s.hubdbRowId = "" →
           changesFor uid (detectChanges currentData storedData) = []))) := by
  constructor
  · intro c hc hsnone
    unfold changesFor detectChanges
    rw [List.filter_append,
      filter_currentPass storedData uid c currentData hcn hc,
      filter_storedPass_none currentData uid storedData hsnone]
    have hcond : c.hubdbRowId ≠ "" ∨ startsWithTemp uid :=
      hwf (uid, c) (lookupRec_mem hc)
    have hcur : changeOfCurrentEntry storedData (uid, c) =
        some { type := "NEW", uniqueId := uid, row := some c.sheetRow,
               newData := some c, oldData := none,
               changedFields := ChangedFieldsVal.marker "ALL" } := by
      simp only [changeOfCurrentEntry]
      rw [hsnone, if_pos hcond]
    rw [hcur]
    rfl
  · intro s hcnone hs
    have hbase : changesFor uid (detectChanges currentData storedData) =
        (changeOfStoredEntry currentData (uid, s)).toList := by
      unfold changesFor detectChanges
      rw [List.filter_append,
        filter_currentPass_none storedData uid currentData hcnone,
        filter_storedPass currentData uid s storedData hsn hs]
      rfl
    constructor
    · intro hid
      rw [hbase]
      have : changeOfStoredEntry currentData (uid, s) =
          some { type := "DELETED", uniqueId := uid, row := none, newData := none,
                 oldData := some s,
                 changedFields := ChangedFieldsVal.marker "DELETED" } := by
        unfold changeOfStoredEntry
        rw [hcnone]
        simp [hid]
      rw [this]
      rfl
    · intro hid
      rw [hbase]
      have : changeOfStoredEntry currentData (uid, s) = none := by
        unfold changeOfStoredEntry
        rw [hcnone]
        simp [hid]
      rw [this]
      rfl

/-- Witness for `detectChanges_updated_exact`: the spec's own example —
`results` changing from "6-4" to "" yields exactly one UPDATED change
with that single field delta. -/
theorem detectChanges_updated_exact_witness :
    ((([("7", w4cur)] : Snapshot).map Prod.fst).Nodup
     ∧ (([("7", w4old)] : Snapshot).map Prod.fst).Nodup
     ∧ lookupRec [("7", w4cur)] "7" = some w4cur
     ∧ lookupRec [("7", w4old)] "7" = some w4old)
    ∧ changesFor "7" (detectChanges [("7", w4cur)] [("7", w4old)]) =
        (if fieldsToCheck.filter (fun f => getField w4cur f ≠ getField w4old f) = []
         then []
         else [{ type := "UPDATED", uniqueId := "7", row := some w4cur.sheetRow,
                 newData := some w4cur, oldData := some w4old,
                 changedFields := ChangedFieldsVal.deltas
                   ((fieldsToCheck.filter
                       (fun f => getField w4cur f ≠ getField w4old f)).map
                     (fun f => ⟨f, getField w4old f, getField w4cur f⟩)) }]) :=
  ⟨⟨by decide, by decide, by decide, by decide⟩,
   detectChanges_updated_exact [("7", w4cur)] [("7", w4old)] "7" w4cur w4old
     (by decide) (by decide) (by decide) (by decide)⟩

/-- Witness for `detectChanges_new_deleted_exact` at a baseline-only key
carrying a remote identity. -/
theorem detectChanges_new_deleted_exact_witness :
    ((w3cur.map Prod.fst).Nodup
     ∧ (w3stored.map Prod.fst).Nodup
     ∧ ∀ e ∈ w3cur, e.2.hubdbRowId ≠ "" ∨ startsWithTemp e.1)
    ∧ ((∀ c : Record, lookupRec w3cur "X" = some c →
          lookupRec w3stored "X" = none →
          changesFor "X" (detectChanges w3cur w3stored) =
            [{ type := "NEW", uniqueId := "X", row := some c.sheetRow,
               newData := some c, oldData := none,
               changedFields := ChangedFieldsVal.marker "ALL" }]) ∧
        (∀ s : Record, lookupRec w3cur "X" = none →
          lookupRec w3stored "X" = some s →
          ((s.hubdbRowId ≠ "" →
              changesFor "X" (detectChanges w3cur w3stored) =
                [{ type := "DELETED", uniqueId := "X", row := none, newData := none,
                   oldData := some s,
                   changedFields := ChangedFieldsVal.marker "DELETED" }]) ∧
           (s.hubdbRowId = "" →
              changesFor "X" (detectChanges w3cur w3stored) = [])))) :=
  ⟨⟨by decide, by decide, by decide⟩,
   detectChanges_new_deleted_exact w3cur w3stored "X"
     (by decide) (by decide) (by decide)⟩

/-! ### Lemmas about `findRowsNeedingHubDBCreation` -/

theorem mem_insertUnique {l : List String} {x y : String} :
    y ∈ insertUnique l x ↔ y ∈ l ∨ y = x := by
  unfold insertUnique
  split
  · next hx =>
    constructor
    · exact Or.inl
    · rintro (h | rfl)
      exacts [h, hx]
  · simp [List.mem_append]

theorem mem_changedFold : ∀ (cs : List Change) (acc : List String) (x : String),
    (x ∈ cs.foldl (fun acc c =>
        if c.type = "NEW" ∨ c.type = "UPDATED" then insertUnique acc c.uniqueId
        else acc) acc) ↔
      x ∈ acc ∨ ∃ c ∈ cs, (c.type = "NEW" ∨ c.type = "UPDATED") ∧ c.uniqueId = x := by
  intro cs
  induction cs with
  | nil => intro acc x; simp
  | cons c rest ih =>
    intro acc x
    rw [List.foldl_cons]
    by_cases hc : c.type = "NEW" ∨ c.type = "UPDATED"
    · rw [if_pos hc, ih]
      constructor
      · rintro (h | ⟨d, hd, hdp, rfl⟩)
        · rcases mem_insertUnique.mp h with h2 | rfl
          · exact Or.inl h2
          · exact Or.inr ⟨c, List.mem_cons_self _ _, hc, rfl⟩
        · exact Or.inr ⟨d, List.mem_cons_of_mem _ hd, hdp, rfl⟩
      · rintro (h | ⟨d, hd, hdp, rfl⟩)
        · exact Or.inl (mem_insertUnique.mpr (Or.inl h))
        · rcases List.mem_cons.mp hd with rfl | hd2
          · exact Or.inl (mem_insertUnique.mpr (Or.inr rfl))
          · exact Or.inr ⟨d, hd2, hdp, rfl⟩
    · rw [if_neg hc, ih]
      constructor
      · rintro (h | ⟨d, hd, hdp, rfl⟩)
        · exact Or.inl h
        · exact Or.inr ⟨d, List.mem_cons_of_mem _ hd, hdp, rfl⟩
      · rintro (h | ⟨d, hd, hdp, rfl⟩)
        · exact Or.inl h
        · rcases List.mem_cons.mp hd with rfl | hd2
          · exact absurd hdp hc
          · exact Or.inr ⟨d, hd2, hdp, rfl⟩

theorem mem_keysFold : ∀ (sn : Snapshot) (acc : List String) (x : String),
    (x ∈ sn.foldl (fun acc e => insertUnique acc e.1) acc) ↔
      x ∈ acc ∨ ∃ e ∈ sn, e.1 = x := by
  intro sn
  induction sn with
  | nil => intro acc x; simp
  | cons e rest ih =>
    intro acc x
    rw [List.foldl_cons, ih]
    constructor
    · rintro (h | ⟨d, hd, rfl⟩)
      · rcases mem_insertUnique.mp h with h2 | rfl
        · exact Or.inl h2
        · exact Or.inr ⟨e, List.mem_cons_self _ _, rfl⟩
      · exact Or.inr ⟨d, List.mem_cons_of_mem _ hd, rfl⟩
    · rintro (h | ⟨d, hd, rfl⟩)
      · exact Or.inl (mem_insertUnique.mpr (Or.inl h))
      · rcases List.mem_cons.mp hd with rfl | hd2
        · exact Or.inl (mem_insertUnique.mpr (Or.inr rfl))
        · exact Or.inr ⟨d, hd2, rfl⟩

theorem foldl_push_eq_filterMap {α β : Type} (g : α → Option β) :
    ∀ (l : List α) (acc : List β),
    (l.foldl (fun a u => a ++ (g u).toList) acc) = acc ++ l.filterMap g := by
  intro l
  induction l with
  | nil => intro acc; simp
  | cons u rest ih =>
    intro acc
    rw [List.foldl_cons, List.filterMap_cons]
    cases hgu : g u with
    | none => simp [ih]
    | some x => simp [ih, List.append_assoc]

theorem creationRowOf_eq_some {allData : Snapshot} {uniqueId : String}
    {e : CreationRow} :
    creationRowOf allData uniqueId = some e ↔
      (e.uniqueId = uniqueId ∧ lookupRec allData uniqueId = some e.data
       ∧ e.data.date_and_time ≠ "" ∧ e.data.player_1 ≠ "" ∧ e.data.player_2 ≠ ""
       ∧ e.data.hubdbRowId = "" ∧ e.sheetRow = e.data.sheetRow) := by
  unfold creationRowOf
  constructor
  · intro h
    split at h
    · exact Option.noConfusion h
    · next data hdata =>
      dsimp only at h
      split at h
      · next hcond =>
        injection h with h2
        subst h2
        exact ⟨rfl, hdata, hcond.1.1, hcond.1.2.1, hcond.1.2.2, hcond.2, rfl⟩
      · exact Option.noConfusion h
  · rintro ⟨huid, hdata, h1, h2, h3, h4, hrow⟩
    rw [hdata]
    dsimp only
    rw [if_pos ⟨⟨h1, h2, h3⟩, h4⟩]
    obtain ⟨eu, ed, er⟩ := e
    simp only at huid hrow ⊢
    rw [huid, hrow]

/-- C8: a record is selected for HubDB row creation exactly when it is in
scope (targeted by a NEW or UPDATED change, or any record at all when the
change list is empty), lacks a HubDB row id, and has the required
date/time and player fields. -/
theorem findRowsNeedingHubDBCreation_exact (allData : Snapshot)
    (changes : List Change) (e : CreationRow) :
    e ∈ findRowsNeedingHubDBCreation allData changes ↔
      ((if changes = [] then ∃ en ∈ allData, en.1 = e.uniqueId
        else ∃ c ∈ changes, (c.type = "NEW" ∨ c.type = "UPDATED")
             ∧ c.uniqueId = e.uniqueId)
       ∧ lookupRec allData e.uniqueId = some e.data
       ∧ e.data.date_and_time ≠ "" ∧ e.data.player_1 ≠ "" ∧ e.data.player_2 ≠ ""
       ∧ e.data.hubdbRowId = "" ∧ e.sheetRow = e.data.sheetRow) := by
  unfold findRowsNeedingHubDBCreation
  rw [foldl_push_eq_filterMap (creationRowOf allData), List.nil_append,
    List.mem_filterMap]
  constructor
  · rintro ⟨uid, huid, hrow⟩
    obtain ⟨heq, hlook, h1, h2, h3, h4, hrow2⟩ := creationRowOf_eq_some.mp hrow
    subst heq
    refine ⟨?_, hlook, h1, h2, h3, h4, hrow2⟩
    unfold changedUniqueIds at huid
    by_cases hch : changes = []
    · rw [if_pos hch]
      subst hch
      simp only [List.length_nil, lt_irrefl, if_neg, not_false_iff] at huid
      rcases (mem_keysFold allData [] e.uniqueId).mp huid with h | h
      · exact absurd h (List.not_mem_nil _)
      · exact h
    · rw [if_neg hch]
      rw [if_pos (by
        cases changes with
        | nil => exact absurd rfl hch
        | cons c rest => simp)] at huid
      rcases (mem_changedFold changes [] e.uniqueId).mp huid with h | h
      · exact absurd h (List.not_mem_nil _)
      · exact h
  · rintro ⟨hscope, hlook, h1, h2, h3, h4, hrow2⟩
    refine ⟨e.uniqueId, ?_, creationRowOf_eq_some.mpr ⟨rfl, hlook, h1, h2, h3, h4, hrow2⟩⟩
    unfold changedUniqueIds
    by_cases hch : changes = []
    · rw [if_pos hch] at hscope
      subst hch
      simp only [List.length_nil, lt_irrefl, if_neg, not_false_iff]
      exact (mem_keysFold allData [] e.uniqueId).mpr (Or.inr hscope)
    · rw [if_neg hch] at hscope
      rw [if_pos (by
        cases changes with
        | nil => exact absurd rfl hch
        | cons c rest => simp)]
      exact (mem_changedFold changes [] e.uniqueId).mpr (Or.inr hscope)

/-! ### Lemmas about the dispatcher -/

theorem processIndividualOperations_req (env : Env) (l : List Change) (s : Sheet) :
    (processIndividualOperations env l s).2.1 = Request.individualOps l := by
  unfold processIndividualOperations
  cases env.indiv with
  | exn m => rfl
  | ok code text b =>
    dsimp only
    split <;> rfl

/-- C6: when the dispatched change list contains exactly one DELETED
change, no batch-delete request is issued; the single delete is carried
by the one combined individual-operations request. -/
theorem sendToHubSpot_single_delete (env : Env) (changes : List Change)
    (sheet : Sheet)
    (h : (changes.filter (fun c => c.type = "DELETED")).length = 1) :
    (∀ ids, Request.batchDelete ids ∉ (sendToHubSpot env changes sheet).trace) ∧
    ∃ ops, (sendToHubSpot env changes sheet).trace = [Request.individualOps ops] ∧
      ∀ d ∈ changes, d.type = "DELETED" → d ∈ ops := by
  have htrace : (sendToHubSpot env changes sheet).trace =
      [Request.individualOps
        (changes.filter (fun c => ¬ c.type = "DELETED")
         ++ changes.filter (fun c => c.type = "DELETED"))] := by
    unfold sendToHubSpot
    rw [if_neg (by rw [h]; exact lt_irrefl 1), if_pos h,
      if_pos (by rw [List.length_append, h]; omega)]
    dsimp only
    rw [processIndividualOperations_req]
  refine ⟨?_, ⟨_, htrace, ?_⟩⟩
  · intro ids
    rw [htrace]
    simp
  · intro d hd hdel
    exact List.mem_append_right _ (List.mem_filter.mpr ⟨hd, by simp [hdel]⟩)

/-- Witness for `sendToHubSpot_single_delete`: a list with one UPDATED
and one DELETED change. -/
theorem sendToHubSpot_single_delete_witness :
    (([w6upd, w6del].filter (fun c => c.type = "DELETED")).length = 1)
    ∧ ((∀ ids, Request.batchDelete ids ∉
          (sendToHubSpot w6env [w6upd, w6del] w6sheet).trace) ∧
       ∃ ops, (sendToHubSpot w6env [w6upd, w6del] w6sheet).trace =
           [Request.individualOps ops] ∧
         ∀ d ∈ [w6upd, w6del], d.type = "DELETED" → d ∈ ops) :=
  ⟨by decide, sendToHubSpot_single_delete w6env [w6upd, w6del] w6sheet (by decide)⟩

/-! ### Sheet read/write lemmas -/

theorem rows_modifyRow_self (s : Sheet) (r : Nat) (f : SheetRow → SheetRow) :
    (s.modifyRow r f).rows r = f (s.rows r) := by
  unfold Sheet.modifyRow
  exact Function.update_same r (f (s.rows r)) s.rows

theorem rows_modifyRow_ne (s : Sheet) {r r' : Nat} {f : SheetRow → SheetRow}
    (h : r' ≠ r) : (s.modifyRow r f).rows r' = s.rows r' := by
  unfold Sheet.modifyRow
  exact Function.update_noteq h (f (s.rows r)) s.rows

theorem updateRowWithError_status_self (s : Sheet) (r : Nat) (m : String) :
    ((updateRowWithError s r m).rows r).syncStatus = "error" := by
  unfold updateRowWithError setMessage setStatus
  rw [rows_modifyRow_self, rows_modifyRow_self]

theorem updateRowWithError_message_self (s : Sheet) (r : Nat) (m : String) :
    ((updateRowWithError s r m).rows r).syncMessage = m := by
  unfold updateRowWithError setMessage setStatus
  rw [rows_modifyRow_self]

theorem updateRowWithError_rows_ne (s : Sheet) {r r' : Nat} (m : String)
    (h : r' ≠ r) : (updateRowWithError s r m).rows r' = s.rows r' := by
  unfold updateRowWithError setMessage setStatus
  rw [rows_modifyRow_ne _ h, rows_modifyRow_ne _ h]

theorem updateRowAfterSuccessfulDelete_self (s : Sheet) (r : Nat) :
    ((updateRowAfterSuccessfulDelete s r).rows r).hubdbRowId = ""
    ∧ ((updateRowAfterSuccessfulDelete s r).rows r).syncStatus = "deleted"
    ∧ ((updateRowAfterSuccessfulDelete s r).rows r).syncMessage =
        "Successfully deleted from HubDB" := by
  unfold updateRowAfterSuccessfulDelete setMessage setStatus setHubdbId
  rw [rows_modifyRow_self, rows_modifyRow_self, rows_modifyRow_self]
  exact ⟨rfl, rfl, rfl⟩

theorem updateRowAfterSuccessfulDelete_rows_ne (s : Sheet) {r r' : Nat}
    (h : r' ≠ r) : (updateRowAfterSuccessfulDelete s r).rows r' = s.rows r' := by
  unfold updateRowAfterSuccessfulDelete setMessage setStatus setHubdbId
  rw [rows_modifyRow_ne _ h, rows_modifyRow_ne _ h, rows_modifyRow_ne _ h]

/-- After the shared error-marking loop, every change with a truthy
`oldData?.sheetRow` has its row's status set to `"error"` (rows already
marked stay marked). -/
theorem markDeleteErrors_status (msg : String) :
    ∀ (l : List Change) (s : Sheet) (r : Nat),
    ((∃ d ∈ l, d.oldRow = some r) ∨ (s.rows r).syncStatus = "error") →
    (((markDeleteErrors l s msg).rows r).syncStatus = "error") := by
  intro l
  induction l with
  | nil =>
    rintro s r (⟨d, hd, _⟩ | h)
    · exact absurd hd (List.not_mem_nil d)
    · exact h
  | cons c rest ih =>
    rintro s r h
    unfold markDeleteErrors at *
    rw [List.foldl_cons]
    cases hcr : c.oldRow with
    | none =>
      refine ih s r ?_
      rcases h with ⟨d, hd, hdr⟩ | herr
      · rcases List.mem_cons.mp hd with rfl | hd2
        · rw [hcr] at hdr; exact absurd hdr (Option.noConfusion)
        · exact Or.inl ⟨d, hd2, hdr⟩
      · exact Or.inr herr
    | some rr =>
      refine ih (updateRowWithError s rr msg) r ?_
      rcases h with ⟨d, hd, hdr⟩ | herr
      · rcases List.mem_cons.mp hd with rfl | hd2
        · rw [hcr] at hdr
          injection hdr with hdr2
          subst hdr2
          exact Or.inr (updateRowWithError_status_self s rr msg)
        · exact Or.inl ⟨d, hd2, hdr⟩
      · by_cases hrr : r = rr
        · subst hrr
          exact Or.inr (updateRowWithError_status_self s r msg)
        · rw [updateRowWithError_rows_ne s msg hrr] at *
          exact Or.inr herr

/-- C2 (amended): on any failed batch-delete attempt every delete target
with a truthy `oldData?.sheetRow` is marked with an error status, but the
deletes are moved into the individual-operations list only on a non-2xx
response or an exception — a 2xx response with `success=false` marks the
errors and leaves the individual-operations list unchanged. -/
theorem processBatchDeletes_failure_handling (resp : FetchOutcome BatchBody)
    (deleteChanges otherChanges : List Change) (sheet : Sheet)
    (hfail : batchRespFails resp) :
    (∀ d ∈ deleteChanges, ∀ r, d.oldRow = some r →
      (((processBatchDeletes resp deleteChanges sheet otherChanges).1).rows r).syncStatus
        = "error") ∧
    ((processBatchDeletes resp deleteChanges sheet otherChanges).2.1 =
      if batchRespMoves resp then otherChanges ++ deleteChanges else otherChanges) := by
  cases resp with
  | exn msg =>
    simp only [processBatchDeletes, handleBatchDeleteError, batchRespMoves]
    constructor
    · intro d hd r hdr
      exact markDeleteErrors_status _ _ _ _ (Or.inl ⟨d, hd, hdr⟩)
    · simp
  | ok code text body =>
    simp only [processBatchDeletes, batchRespMoves]
    by_cases h2 : is2xx code = true
    · rw [if_pos h2]
      have hsucc : body.success = false := by
        rcases hfail with hc | hs
        · rw [h2] at hc
          exact absurd hc (by simp)
        · exact hs
      constructor
      · intro d hd r hdr
        simp only [handleBatchDeleteSuccess]
        rw [if_neg (by rw [hsucc]; exact Bool.false_ne_true)]
        exact markDeleteErrors_status _ _ _ _ (Or.inl ⟨d, hd, hdr⟩)
      · simp [h2]
    · rw [if_neg h2]
      simp only [handleBatchDeleteFailure]
      constructor
      · intro d hd r hdr
        exact markDeleteErrors_status _ _ _ _ (Or.inl ⟨d, hd, hdr⟩)
      · rw [Bool.not_eq_true] at h2
        simp [h2]

/-- Counterexample to C2 as stated: a batch-delete attempt answered with
a 2xx response whose body reports overall failure (`success=false`) marks
the delete targets with an error status but does NOT move the DELETED
changes into the individual-operations list — `otherChanges` stays empty,
so they are not retried in the combined individual request. -/
theorem processBatchDeletes_success_false_counterexample :
    batchRespFails c2resp
    ∧ ((processBatchDeletes c2resp [c2delA, c2delB] c2sheet []).1.rows 4).syncStatus
        = "error"
    ∧ ((processBatchDeletes c2resp [c2delA, c2delB] c2sheet []).1.rows 5).syncStatus
        = "error"
    ∧ (processBatchDeletes c2resp [c2delA, c2delB] c2sheet []).2.1 = []
    ∧ c2delA ∉ (processBatchDeletes c2resp [c2delA, c2delB] c2sheet []).2.1 :=
  ⟨Or.inr rfl, by decide, by decide, by decide, by decide⟩

/-- Witness for `processBatchDeletes_failure_handling` at an exception
outcome. -/
theorem processBatchDeletes_failure_handling_witness :
    batchRespFails (FetchOutcome.exn "network down")
    ∧ ((∀ d ∈ [c2delA, c2delB], ∀ r, d.oldRow = some r →
          (((processBatchDeletes (FetchOutcome.exn "network down")
              [c2delA, c2delB] c2sheet []).1).rows r).syncStatus = "error") ∧
       ((processBatchDeletes (FetchOutcome.exn "network down")
           [c2delA, c2delB] c2sheet []).2.1 =
         if batchRespMoves (FetchOutcome.exn "network down")
         then [] ++ [c2delA, c2delB] else [])) :=
  ⟨trivial,
   processBatchDeletes_failure_handling (FetchOutcome.exn "network down")
     [c2delA, c2delB] [] c2sheet trivial⟩

theorem batchDeleteRowUpdate_deleted (succ : List DeleteResult) (uid : String)
    (old : Record) (s : Sheet) (hr0 : old.sheetRow ≠ 0)
    (hin : succ.any (fun res => res.hubdbId = old.hubdbRowId) = true) :
    batchDeleteRowUpdate succ s (deletedChange uid old) =
      updateRowAfterSuccessfulDelete s old.sheetRow := by
  unfold batchDeleteRowUpdate deletedChange Change.oldRow truthyNat
  simp only [Option.map_some']
  rw [if_neg hr0]
  simp only [Option.getD_some]
  rw [if_pos hin]

theorem batchDeleteRowUpdate_notDeleted (succ : List DeleteResult) (uid : String)
    (old : Record) (s : Sheet) (hr0 : old.sheetRow ≠ 0)
    (hin : succ.any (fun res => res.hubdbId = old.hubdbRowId) = false) :
    batchDeleteRowUpdate succ s (deletedChange uid old) =
      updateRowWithError s old.sheetRow "Batch deletion failed" := by
  unfold batchDeleteRowUpdate deletedChange Change.oldRow truthyNat
  simp only [Option.map_some']
  rw [if_neg hr0]
  simp only [Option.getD_some]
  rw [if_neg (by rw [hin]; exact Bool.false_ne_true)]

/-- C5: a batch delete of `[A, B, C]` answered 2xx/`success=true` with
per-identity results reporting `A` and `C` as succeeded and not `B`
clears `A`'s and `C`'s rows (identity removed, status "deleted"), marks
`B`'s row with an error status, and issues no further request and no
fallback for `B`: the individual-operations list is returned unchanged
and the only request of the batch path is the batch delete itself. -/
theorem processBatchDeletes_partial_success
    (A B C text msg : String) (code : Nat) (rs : List DeleteResult)
    (oA oB oC : Record) (otherChanges : List Change) (sheet : Sheet)
    (hcode : is2xx code = true)
    (hA : oA.hubdbRowId = A) (hB : oB.hubdbRowId = B) (hC : oC.hubdbRowId = C)
    (hA0 : oA.sheetRow ≠ 0) (hB0 : oB.sheetRow ≠ 0) (hC0 : oC.sheetRow ≠ 0)
    (hAne : A ≠ "") (hBne : B ≠ "") (hCne : C ≠ "")
    (hBA : oB.sheetRow ≠ oA.sheetRow) (hCA : oC.sheetRow ≠ oA.sheetRow)
    (hCB : oC.sheetRow ≠ oB.sheetRow)
    (hsA : (rs.filter (fun r => r.status = "success")).any
        (fun r => r.hubdbId = A) = true)
    (hsC : (rs.filter (fun r => r.status = "success")).any
        (fun r => r.hubdbId = C) = true)
    (hsB : (rs.filter (fun r => r.status = "success")).any
        (fun r => r.hubdbId = B) = false) :
    (((processBatchDeletes (FetchOutcome.ok code text ⟨true, rs, msg⟩)
        [deletedChange A oA, deletedChange B oB, deletedChange C oC]
        sheet otherChanges).1.rows oA.sheetRow).hubdbRowId = ""
     ∧ ((processBatchDeletes (FetchOutcome.ok code text ⟨true, rs, msg⟩)
        [deletedChange A oA, deletedChange B oB, deletedChange C oC]
        sheet otherChanges).1.rows oA.sheetRow).syncStatus = "deleted")
    ∧ (((processBatchDeletes (FetchOutcome.ok code text ⟨true, rs, msg⟩)
        [deletedChange A oA, deletedChange B oB, deletedChange C oC]
        sheet otherChanges).1.rows oC.sheetRow).hubdbRowId = ""
     ∧ ((processBatchDeletes (FetchOutcome.ok code text ⟨true, rs, msg⟩)
        [deletedChange A oA, deletedChange B oB, deletedChange C oC]
        sheet otherChanges).1.rows oC.sheetRow).syncStatus = "deleted")
    ∧ (((processBatchDeletes (FetchOutcome.ok code text ⟨true, rs, msg⟩)
        [deletedChange A oA, deletedChange B oB, deletedChange C oC]
        sheet otherChanges).1.rows oB.sheetRow).syncStatus = "error"
     ∧ ((processBatchDeletes (FetchOutcome.ok code text ⟨true, rs, msg⟩)
        [deletedChange A oA, deletedChange B oB, deletedChange C oC]
        sheet otherChanges).1.rows oB.sheetRow).syncMessage = "Batch deletion failed")
    ∧ (processBatchDeletes (FetchOutcome.ok code text ⟨true, rs, msg⟩)
        [deletedChange A oA, deletedChange B oB, deletedChange C oC]
        sheet otherChanges).2.1 = otherChanges
    ∧ (processBatchDeletes (FetchOutcome.ok code text ⟨true, rs, msg⟩)
        [deletedChange A oA, deletedChange B oB, deletedChange C oC]
        sheet otherChanges).2.2 = [Request.batchDelete [A, B, C]] := by
  have hsheet : (processBatchDeletes (FetchOutcome.ok code text ⟨true, rs, msg⟩)
      [deletedChange A oA, deletedChange B oB, deletedChange C oC]
      sheet otherChanges).1 =
      updateRowAfterSuccessfulDelete
        (updateRowWithError
          (updateRowAfterSuccessfulDelete
            (updateSyncStatusForChanges
              [deletedChange A oA, deletedChange B oB, deletedChange C oC]
              sheet "syncing")
            oA.sheetRow)
          oB.sheetRow "Batch deletion failed")
        oC.sheetRow := by
    simp only [processBatchDeletes]
    rw [if_pos hcode]
    simp only [handleBatchDeleteSuccess, if_pos]
    rw [List.foldl_cons, List.foldl_cons, List.foldl_cons, List.foldl_nil]
    rw [batchDeleteRowUpdate_deleted _ _ _ _ hA0 (by rw [hA]; exact hsA),
      batchDeleteRowUpdate_notDeleted _ _ _ _ hB0 (by rw [hB]; exact hsB),
      batchDeleteRowUpdate_deleted _ _ _ _ hC0 (by rw [hC]; exact hsC)]
  refine ⟨?_, ?_, ?_, ?_, ?_⟩
  · rw [hsheet, updateRowAfterSuccessfulDelete_rows_ne _ (fun h => hCA h.symm),
      updateRowWithError_rows_ne _ _ (fun h => hBA h.symm)]
    exact ⟨(updateRowAfterSuccessfulDelete_self _ _).1,
      (updateRowAfterSuccessfulDelete_self _ _).2.1⟩
  · rw [hsheet]
    exact ⟨(updateRowAfterSuccessfulDelete_self _ _).1,
      (updateRowAfterSuccessfulDelete_self _ _).2.1⟩
  · rw [hsheet, updateRowAfterSuccessfulDelete_rows_ne _ (Ne.symm hCB)]
    exact ⟨updateRowWithError_status_self _ _ _, updateRowWithError_message_self _ _ _⟩
  · simp only [processBatchDeletes]
    rw [if_pos hcode]
  · simp only [processBatchDeletes]
    rw [if_pos hcode]
    simp only [batchDeleteIds, deletedChange, List.filterMap]
    rw [hA, hB, hC]
    rw [if_neg hAne, if_neg hBne, if_neg hCne]

/-- Witness for `processBatchDeletes_partial_success` with identities
A1, B1, C1 on rows 4, 5, 6. -/
theorem processBatchDeletes_partial_success_witness :
    (is2xx 200 = true
     ∧ w5recA.hubdbRowId = "A1"
     ∧ w5recB.hubdbRowId = "B1"
     ∧ w5recC.hubdbRowId = "C1"
     ∧ w5recA.sheetRow ≠ 0
     ∧ w5recB.sheetRow ≠ 0
     ∧ w5recC.sheetRow ≠ 0
     ∧ ("A1" : String) ≠ ""
     ∧ ("B1" : String) ≠ ""
     ∧ ("C1" : String) ≠ ""
     ∧ w5recB.sheetRow ≠ w5recA.sheetRow
     ∧ w5recC.sheetRow ≠ w5recA.sheetRow
     ∧ w5recC.sheetRow ≠ w5recB.sheetRow
     ∧ (w5rs.filter (fun r => r.status = "success")).any (fun r => r.hubdbId = "A1") = true
     ∧ (w5rs.filter (fun r => r.status = "success")).any (fun r => r.hubdbId = "C1") = true
     ∧ (w5rs.filter (fun r => r.status = "success")).any (fun r => r.hubdbId = "B1") = false)
    ∧ ((((processBatchDeletes (FetchOutcome.ok 200 "t" ⟨true, w5rs, ""⟩)
        [deletedChange "A1" w5recA, deletedChange "B1" w5recB, deletedChange "C1" w5recC]
        w5sheet []).1.rows w5recA.sheetRow).hubdbRowId = ""
     ∧ ((processBatchDeletes (FetchOutcome.ok 200 "t" ⟨true, w5rs, ""⟩)
        [deletedChange "A1" w5recA, deletedChange "B1" w5recB, deletedChange "C1" w5recC]
        w5sheet []).1.rows w5recA.sheetRow).syncStatus = "deleted")
    ∧ (((processBatchDeletes (FetchOutcome.ok 200 "t" ⟨true, w5rs, ""⟩)
        [deletedChange "A1" w5recA, deletedChange "B1" w5recB, deletedChange "C1" w5recC]
        w5sheet []).1.rows w5recC.sheetRow).hubdbRowId = ""
     ∧ ((processBatchDeletes (FetchOutcome.ok 200 "t" ⟨true, w5rs, ""⟩)
        [deletedChange "A1" w5recA, deletedChange "B1" w5recB, deletedChange "C1" w5recC]
        w5sheet []).1.rows w5recC.sheetRow).syncStatus = "deleted")
    ∧ (((processBatchDeletes (FetchOutcome.ok 200 "t" ⟨true, w5rs, ""⟩)
        [deletedChange "A1" w5recA, deletedChange "B1" w5recB, deletedChange "C1" w5recC]
        w5sheet []).1.rows w5recB.sheetRow).syncStatus = "error"
     ∧ ((processBatchDeletes (FetchOutcome.ok 200 "t" ⟨true, w5rs, ""⟩)
        [deletedChange "A1" w5recA, deletedChange "B1" w5recB, deletedChange "C1" w5recC]
        w5sheet []).1.rows w5recB.sheetRow).syncMessage = "Batch deletion failed")
    ∧ (processBatchDeletes (FetchOutcome.ok 200 "t" ⟨true, w5rs, ""⟩)
        [deletedChange "A1" w5recA, deletedChange "B1" w5recB, deletedChange "C1" w5recC]
        w5sheet []).2.1 = []
    ∧ (processBatchDeletes (FetchOutcome.ok 200 "t" ⟨true, w5rs, ""⟩)
        [deletedChange "A1" w5recA, deletedChange "B1" w5recB, deletedChange "C1" w5recC]
        w5sheet []).2.2 = [Request.batchDelete ["A1", "B1", "C1"]]) :=
  ⟨by decide,
   processBatchDeletes_partial_success "A1" "B1" "C1" "t" "" 200 w5rs
     w5recA w5recB w5recC [] w5sheet
     (by decide) (by decide) (by decide) (by decide) (by decide) (by decide) (by decide) (by decide) (by decide) (by decide) (by decide) (by decide) (by decide) (by decide) (by decide) (by decide)⟩

/-! ### Provenance lemmas for the record extractor -/

theorem mem_objSet {m : Snapshot} {k : String} {v : Record} :
    ∀ e ∈ objSet m k v, e ∈ m ∨ e = (k, v) := by
  intro e he
  unfold objSet at he
  split at he
  · rw [List.mem_map] at he
    obtain ⟨a, ha, hae⟩ := he
    by_cases hak : a.1 = k
    · rw [if_pos hak] at hae
      right
      exact hae.symm
    · rw [if_neg hak] at hae
      left
      exact hae ▸ ha
  · rcases List.mem_append.mp he with h | h
    · exact Or.inl h
    · right
      simpa using h

theorem fst_processRow_sub {sheet : Sheet} {acc : Snapshot × List ClearedRow}
    {i : Nat} :
    ∀ e ∈ (processRow sheet acc i).1, e ∈ acc.1 ∨
      (e = (uniqueIdOfRow (sheet.rows (DATA_START_ROW + i)) (DATA_START_ROW + i),
            recordOfRow (sheet.rows (DATA_START_ROW + i)) (DATA_START_ROW + i))
       ∧ rowCoreEmpty (sheet.rows (DATA_START_ROW + i)) = false) := by
  intro e he
  unfold processRow at he
  dsimp only at he
  split at he
  · exact Or.inl he
  · split at he
    · exact Or.inl he
    · split at he
      · exact Or.inl he
      · next hcore =>
        rcases mem_objSet e he with h | h
        · exact Or.inl h
        · exact Or.inr ⟨h, by rwa [Bool.not_eq_true] at hcore⟩

theorem snd_processRow_sub {sheet : Sheet} {acc : Snapshot × List ClearedRow}
    {i : Nat} :
    ∀ c ∈ (processRow sheet acc i).2, c ∈ acc.2 ∨
      (c = ⟨DATA_START_ROW + i, (sheet.rows (DATA_START_ROW + i)).hubdbRowId⟩
       ∧ rowAllEmpty (sheet.rows (DATA_START_ROW + i)) = true
       ∧ (sheet.rows (DATA_START_ROW + i)).hubdbRowId ≠ "") := by
  intro c hc
  unfold processRow at hc
  dsimp only at hc
  split at hc
  · next hcl =>
    rcases List.mem_append.mp hc with h | h
    · exact Or.inl h
    · rw [Bool.and_eq_true, decide_eq_true_iff] at hcl
      exact Or.inr ⟨by simpa using h, hcl.1, hcl.2⟩
  · split at hc
    · exact Or.inl hc
    · split at hc
      · exact Or.inl hc
      · exact Or.inl hc

theorem snd_processRow_mono {sheet : Sheet} {acc : Snapshot × List ClearedRow}
    {i : Nat} {c : ClearedRow} (hc : c ∈ acc.2) :
    c ∈ (processRow sheet acc i).2 := by
  unfold processRow
  dsimp only
  split
  · exact List.mem_append_left _ hc
  · split
    · exact hc
    · split
      · exact hc
      · exact hc

theorem processRow_cleared {sheet : Sheet} {i : Nat}
    (h1 : rowAllEmpty (sheet.rows (DATA_START_ROW + i)) = true)
    (h2 : (sheet.rows (DATA_START_ROW + i)).hubdbRowId ≠ "")
    (acc : Snapshot × List ClearedRow) :
    processRow sheet acc i =
      (acc.1, acc.2 ++ [⟨DATA_START_ROW + i,
        (sheet.rows (DATA_START_ROW + i)).hubdbRowId⟩]) := by
  unfold processRow
  dsimp only
  rw [if_pos (by rw [Bool.and_eq_true, decide_eq_true_iff]; exact ⟨h1, h2⟩)]

theorem fst_extract_sub (sheet : Sheet) :
    ∀ (L : List Nat) (acc : Snapshot × List ClearedRow),
    ∀ e ∈ (extractRows sheet L acc).1, e ∈ acc.1 ∨
      ∃ i ∈ L,
        (e = (uniqueIdOfRow (sheet.rows (DATA_START_ROW + i)) (DATA_START_ROW + i),
              recordOfRow (sheet.rows (DATA_START_ROW + i)) (DATA_START_ROW + i))
         ∧ rowCoreEmpty (sheet.rows (DATA_START_ROW + i)) = false) := by
  intro L
  induction L with
  | nil => intro acc e he; exact Or.inl he
  | cons j rest ih =>
    intro acc e he
    rw [extractRows] at he
    rcases ih (processRow sheet acc j) e he with h | ⟨i, hi, hprod⟩
    · rcases fst_processRow_sub e h with h2 | h2
      · exact Or.inl h2
      · exact Or.inr ⟨j, List.mem_cons_self _ _, h2⟩
    · exact Or.inr ⟨i, List.mem_cons_of_mem _ hi, hprod⟩

theorem snd_extract_sub (sheet : Sheet) :
    ∀ (L : List Nat) (acc : Snapshot × List ClearedRow),
    ∀ c ∈ (extractRows sheet L acc).2, c ∈ acc.2 ∨
      ∃ i ∈ L,
        (c = ⟨DATA_START_ROW + i, (sheet.rows (DATA_START_ROW + i)).hubdbRowId⟩
         ∧ rowAllEmpty (sheet.rows (DATA_START_ROW + i)) = true
         ∧ (sheet.rows (DATA_START_ROW + i)).hubdbRowId ≠ "") := by
  intro L
  induction L with
  | nil => intro acc c hc; exact Or.inl hc
  | cons j rest ih =>
    intro acc c hc
    rw [extractRows] at hc
    rcases ih (processRow sheet acc j) c hc with h | ⟨i, hi, hprod⟩
    · rcases snd_processRow_sub c h with h2 | h2
      · exact Or.inl h2
      · exact Or.inr ⟨j, List.mem_cons_self _ _, h2⟩
    · exact Or.inr ⟨i, List.mem_cons_of_mem _ hi, hprod⟩

theorem snd_extract_mono (sheet : Sheet) :
    ∀ (L : List Nat) (acc : Snapshot × List ClearedRow) (c : ClearedRow),
    c ∈ acc.2 → c ∈ (extractRows sheet L acc).2 := by
  intro L
  induction L with
  | nil => intro acc c hc; exact hc
  | cons j rest ih =>
    intro acc c hc
    rw [extractRows]
    exact ih _ c (snd_processRow_mono hc)

theorem mem_snd_extract_of_cleared (sheet : Sheet) :
    ∀ (L : List Nat) (acc : Snapshot × List ClearedRow) (i : Nat), i ∈ L →
    rowAllEmpty (sheet.rows (DATA_START_ROW + i)) = true →
    (sheet.rows (DATA_START_ROW + i)).hubdbRowId ≠ "" →
    (⟨DATA_START_ROW + i, (sheet.rows (DATA_START_ROW + i)).hubdbRowId⟩ : ClearedRow)
      ∈ (extractRows sheet L acc).2 := by
  intro L
  induction L with
  | nil => intro acc i hi; exact absurd hi (List.not_mem_nil i)
  | cons j rest ih =>
    intro acc i hi h1 h2
    rw [extractRows]
    rcases List.mem_cons.mp hi with rfl | hi2
    · refine snd_extract_mono sheet rest _ _ ?_
      rw [processRow_cleared h1 h2]
      exact List.mem_append_right _ (List.mem_singleton.mpr rfl)
    · exact ih _ i hi2 h1 h2

theorem rowCoreEmpty_of_rowAllEmpty {row : SheetRow}
    (h : rowAllEmpty row = true) : rowCoreEmpty row = true := by
  unfold rowAllEmpty at h
  unfold rowCoreEmpty
  rw [List.all_eq_true] at *
  intro j hj
  exact h j (List.mem_range.mpr (lt_trans (List.mem_range.mp hj) (by norm_num)))

/-- C7: a row whose eleven data cells are all empty is classified by its
remote identity — with no `hs_id` it reaches neither the snapshot nor the
orphan list; with an `hs_id` it is kept out of the snapshot and appears in
the orphan list with its identity and row position. -/
theorem getAllSheetData_empty_row_classified (sheet : Sheet) (r : Nat)
    (hr1 : DATA_START_ROW ≤ r) (hr2 : r ≤ sheet.lastRow)
    (hempty : rowAllEmpty (sheet.rows r) = true) :
    ((sheet.rows r).hubdbRowId = "" →
        (∀ e ∈ (getAllSheetData sheet).1, e.2.sheetRow ≠ r)
        ∧ (∀ c ∈ (getAllSheetData sheet).2, c.sheetRow ≠ r))
    ∧ ((sheet.rows r).hubdbRowId ≠ "" →
        (∀ e ∈ (getAllSheetData sheet).1, e.2.sheetRow ≠ r)
        ∧ (⟨r, (sheet.rows r).hubdbRowId⟩ : ClearedRow) ∈ (getAllSheetData sheet).2) := by
  have hsnap : ∀ e ∈ (getAllSheetData sheet).1, e.2.sheetRow ≠ r := by
    intro e he
    rcases fst_extract_sub sheet _ _ e he with h | ⟨i, _, heq, hcore⟩
    · exact absurd h (List.not_mem_nil e)
    · intro hrow
      have hrow2 : e.2.sheetRow = DATA_START_ROW + i := by rw [heq]; rfl
      have h4 : DATA_START_ROW + i = r := by rw [← hrow2, hrow]
      rw [h4] at hcore
      rw [rowCoreEmpty_of_rowAllEmpty hempty] at hcore
      exact Bool.noConfusion hcore
  constructor
  · intro hid
    refine ⟨hsnap, ?_⟩
    intro c hc
    rcases snd_extract_sub sheet _ _ c hc with h | ⟨i, _, heq, _, hidne⟩
    · exact absurd h (List.not_mem_nil c)
    · intro hrow
      have hrow2 : c.sheetRow = DATA_START_ROW + i := by rw [heq]
      have h4 : DATA_START_ROW + i = r := by rw [← hrow2, hrow]
      rw [h4] at hidne
      exact hidne hid
  · intro hid
    refine ⟨hsnap, ?_⟩
    have h4 : DATA_START_ROW + (r - DATA_START_ROW) = r := Nat.add_sub_cancel' hr1
    have hmem : r - DATA_START_ROW ∈
        List.range (sheet.lastRow - DATA_START_ROW + 1) :=
      List.mem_range.mpr (by omega)
    have hres := mem_snd_extract_of_cleared sheet
      (List.range (sheet.lastRow - DATA_START_ROW + 1)) ([], [])
      (r - DATA_START_ROW) hmem (by rw [h4]; exact hempty) (by rw [h4]; exact hid)
    rw [h4] at hres
    exact hres

/-- C10: a row whose five core identifying cells are empty but which has
some other non-empty data cell (so it is not entirely empty) and carries
a remote identity is silently dropped — it reaches neither the snapshot
nor the orphan list, so its remote binding triggers neither an update nor
a deletion. -/
theorem getAllSheetData_core_empty_dropped (sheet : Sheet) (r : Nat)
    (hr1 : DATA_START_ROW ≤ r) (hr2 : r ≤ sheet.lastRow)
    (hcore : rowCoreEmpty (sheet.rows r) = true)
    (hsome : rowAllEmpty (sheet.rows r) = false)
    (hid : (sheet.rows r).hubdbRowId ≠ "") :
    (∀ e ∈ (getAllSheetData sheet).1, e.2.sheetRow ≠ r)
    ∧ (∀ c ∈ (getAllSheetData sheet).2, c.sheetRow ≠ r) := by
  constructor
  · intro e he
    rcases fst_extract_sub sheet _ _ e he with h | ⟨i, _, heq, hcoreF⟩
    · exact absurd h (List.not_mem_nil e)
    · intro hrow
      have hrow2 : e.2.sheetRow = DATA_START_ROW + i := by rw [heq]; rfl
      have h4 : DATA_START_ROW + i = r := by rw [← hrow2, hrow]
      rw [h4, hcore] at hcoreF
      exact Bool.noConfusion hcoreF
  · intro c hc
    rcases snd_extract_sub sheet _ _ c hc with h | ⟨i, _, heq, hall, _⟩
    · exact absurd h (List.not_mem_nil c)
    · intro hrow
      have hrow2 : c.sheetRow = DATA_START_ROW + i := by rw [heq]
      have h4 : DATA_START_ROW + i = r := by rw [← hrow2, hrow]
      rw [h4, hsome] at hall
      exact Bool.noConfusion hall

/-- Witness for `getAllSheetData_empty_row_classified`: row 4 is blank
with no identity, row 5 is blank with identity "ORPH". -/
theorem getAllSheetData_empty_row_classified_witness :
    (DATA_START_ROW ≤ 4 ∧ 4 ≤ w7sheet.lastRow ∧ rowAllEmpty (w7sheet.rows 4) = true
     ∧ DATA_START_ROW ≤ 5 ∧ 5 ≤ w7sheet.lastRow ∧ rowAllEmpty (w7sheet.rows 5) = true)
    ∧ (((w7sheet.rows 4).hubdbRowId = "" →
          (∀ e ∈ (getAllSheetData w7sheet).1, e.2.sheetRow ≠ 4)
          ∧ (∀ c ∈ (getAllSheetData w7sheet).2, c.sheetRow ≠ 4))
       ∧ ((w7sheet.rows 4).hubdbRowId ≠ "" →
          (∀ e ∈ (getAllSheetData w7sheet).1, e.2.sheetRow ≠ 4)
          ∧ (⟨4, (w7sheet.rows 4).hubdbRowId⟩ : ClearedRow) ∈ (getAllSheetData w7sheet).2))
    ∧ (((w7sheet.rows 5).hubdbRowId = "" →
          (∀ e ∈ (getAllSheetData w7sheet).1, e.2.sheetRow ≠ 5)
          ∧ (∀ c ∈ (getAllSheetData w7sheet).2, c.sheetRow ≠ 5))
       ∧ ((w7sheet.rows 5).hubdbRowId ≠ "" →
          (∀ e ∈ (getAllSheetData w7sheet).1, e.2.sheetRow ≠ 5)
          ∧ (⟨5, (w7sheet.rows 5).hubdbRowId⟩ : ClearedRow) ∈ (getAllSheetData w7sheet).2)) :=
  ⟨by decide,
   getAllSheetData_empty_row_classified w7sheet 4 (by decide) (by decide) (by decide),
   getAllSheetData_empty_row_classified w7sheet 5 (by decide) (by decide) (by decide)⟩

/-- Witness for `getAllSheetData_core_empty_dropped`: a row with empty
core cells, a non-empty results cell, and identity "Z9". -/
theorem getAllSheetData_core_empty_dropped_witness :
    (DATA_START_ROW ≤ 4 ∧ 4 ≤ w10sheet.lastRow
     ∧ rowCoreEmpty (w10sheet.rows 4) = true
     ∧ rowAllEmpty (w10sheet.rows 4) = false
     ∧ (w10sheet.rows 4).hubdbRowId ≠ "")
    ∧ ((∀ e ∈ (getAllSheetData w10sheet).1, e.2.sheetRow ≠ 4)
       ∧ (∀ c ∈ (getAllSheetData w10sheet).2, c.sheetRow ≠ 4)) :=
  ⟨by decide,
   getAllSheetData_core_empty_dropped w10sheet 4 (by decide) (by decide)
     (by decide) (by decide) (by decide)⟩

theorem startsWithTemp_append (s : String) :
    startsWithTemp ("temp_" ++ s) = true := by
  unfold startsWithTemp
  rw [String.data_append, List.isPrefixOf_iff_prefix]
  exact List.prefix_append _ _

/-- Every record extracted by `getAllSheetData` is keyed by its remote
identity or by a `temp_` placeholder: the well-formedness assumption used
by `detectChanges_new_deleted_exact` holds of all extractor outputs. -/
theorem getAllSheetData_wellformed (sheet : Sheet) :
    ∀ e ∈ (getAllSheetData sheet).1,
      e.2.hubdbRowId ≠ "" ∨ startsWithTemp e.1 := by
  intro e he
  rcases fst_extract_sub sheet _ _ e he with h | ⟨i, _, heq, _⟩
  · exact absurd h (List.not_mem_nil e)
  · by_cases hid : (sheet.rows (DATA_START_ROW + i)).hubdbRowId = ""
    · right
      rw [heq]
      show startsWithTemp (uniqueIdOfRow _ _) = true
      unfold uniqueIdOfRow
      rw [if_neg (by simpa using hid)]
      exact startsWithTemp_append _
    · left
      rw [heq]
      show (recordOfRow _ _).hubdbRowId ≠ ""
      unfold recordOfRow
      exact hid

/-- C1 (amended): a sync cycle that provisions no new HubDB rows and ends
in the fatal combined-request failure leaves the persisted baseline
unchanged, so the next cycle diffs against the same baseline. (When the
cycle does provision rows, the baseline has already been overwritten with
the refreshed post-provisioning snapshot before dispatch, so the claim
fails in that case — see `syncAllData_fatal_counterexample`.) -/
theorem syncAllData_fatal_preserves_baseline (env : Env) (sheet0 : Sheet)
    (stored0 : Snapshot)
    (hnoprov : findRowsNeedingHubDBCreation (getAllSheetData sheet0).1
        (detectChanges (getAllSheetData sheet0).1 stored0) = [])
    (hfatal : (syncAllData env sheet0 stored0).fatal = true) :
    (syncAllData env sheet0 stored0).stored = stored0 := by
  simp only [syncAllData] at hfatal ⊢
  rw [hnoprov] at hfatal ⊢
  simp only [List.length_nil, lt_self_iff_false, if_false, if_true] at hfatal ⊢
  by_cases h1 : 0 < (detectChanges (getAllSheetData sheet0).1 stored0).length
  · rw [if_pos h1] at hfatal ⊢
    by_cases h2 : 0 < (List.filter hasHubDBId
        (detectChanges (getAllSheetData sheet0).1 stored0)).length
    · rw [if_pos h2] at hfatal ⊢
      by_cases h3 : (sendToHubSpot env
          (List.filter hasHubDBId (detectChanges (getAllSheetData sheet0).1 stored0))
          (if 0 < (getAllSheetData sheet0).2.length then
            handleClearedRows env (getAllSheetData sheet0).2 sheet0
          else sheet0)).failed = true
      · rw [if_pos h3]
      · rw [if_neg h3] at hfatal
        exact absurd hfatal (by simp)
    · rw [if_neg h2] at hfatal
      exact absurd hfatal (by simp)
  · rw [if_neg h1]

/-- Counterexample to C1 as stated: a cycle that provisions a new HubDB
row (the sheet's only record lacks an identity and qualifies) stores the
refreshed snapshot *before* dispatch; when the combined
individual-operations request then fails (HTTP 500), the cycle is fatal
and yet the persisted baseline has changed. -/
theorem syncAllData_fatal_counterexample :
    findRowsNeedingHubDBCreation (getAllSheetData c1sheet).1
        (detectChanges (getAllSheetData c1sheet).1 c1stored) ≠ []
    ∧ (syncAllData c1env c1sheet c1stored).fatal = true
    ∧ (syncAllData c1env c1sheet c1stored).stored ≠ c1stored :=
  ⟨by decide, by decide, by decide⟩

/-- Witness for `syncAllData_fatal_preserves_baseline`: a cycle whose one
record is already provisioned, whose results cell changed, and whose
combined request fails with HTTP 500. -/
theorem syncAllData_fatal_preserves_baseline_witness :
    (findRowsNeedingHubDBCreation (getAllSheetData w1sheet).1
        (detectChanges (getAllSheetData w1sheet).1 w1stored) = []
     ∧ (syncAllData w1env w1sheet w1stored).fatal = true)
    ∧ (syncAllData w1env w1sheet w1stored).stored = w1stored :=
  ⟨⟨by decide, by decide⟩,
   syncAllData_fatal_preserves_baseline w1env w1sheet w1stored
     (by decide) (by decide)⟩
